import Mathlib

/-!
# RFNoC node graph: source-side connection logic

A shallow embedding of `host/lib/usrp/rfnoc/source_node_ctrl.cpp` and of the
parts of `host/include/uhd/usrp/rfnoc/node_ctrl_base.hpp` it works on.

Conventions of the embedding:

* a `size_t` is a natural number; the member functions compare and store
  port numbers and do no arithmetic on them (the scan for a free port counts
  upwards from 0 and stops at or below the number of entries of the map);
* a member function is a function of the object state `self` that returns its
  result together with the object state after the call;
* a member function that may throw returns `Except exception _` as its result;
  the state next to it is the state of the object when the exception leaves
  the function;
* a pointer to a node is the address of the node object, or nothing for a
  null pointer; the dynamic type of the object at an address is given by a
  class table (`is_sink : Nat → Bool` tells whether the object at an address
  is an instance of `sink_node_ctrl`);
* `ANY_PORT` is declared in `constants.hpp`, outside the files embedded here;
  every definition that uses it takes its value as a parameter;
* the node objects of a graph form a heap, the list of the objects with their
  addresses; a weak pointer to an address without object is a stale reference;
* `utils::node_map_find_first_free`, `node_ctrl_base::clear` and
  `node_ctrl_base::_find_child_node` are defined outside the files embedded
  here and are modelled from the spec.
-/

namespace uhd

/-- The two `uhd` exception classes thrown by the embedded code, each with its
`what()` message. -/
inductive exception where
  | type_error (what : String)
  | runtime_error (what : String)
  deriving DecidableEq

/-- The type `uhd::device_addr_t`: a dictionary from string keys to string values. -/
abbrev device_addr_t := List (String × String)

namespace rfnoc

/-- The type `node_ctrl_base::sptr` (`boost::shared_ptr<node_ctrl_base>`): the
address of a node object, or `none` for a null pointer. -/
abbrev sptr := Option Nat

/-- The type `node_ctrl_base::wptr` (`boost::weak_ptr<node_ctrl_base>`): a
non-owning reference to the node object at an address, or `none` when empty. -/
abbrev wptr := Option Nat

/-- The conversion `boost::weak_ptr<node_ctrl_base>(p)`: the weak pointer refers to the
object the shared pointer refers to. -/
def wptr_of_sptr (p : sptr) : wptr := p

/-- The cast `boost::dynamic_pointer_cast<T>(p)`, for the class `T` whose instances
are given by `is_T`: `p` itself when it points to an instance of `T`, a null
pointer otherwise (in particular when `p` is null). -/
def dynamic_pointer_cast (is_T : Nat → Bool) (p : sptr) : sptr :=
  match p with
  | none => none
  | some a => if is_T a then some a else none

/-- The type `node_ctrl_base::node_map_t` (`std::map<size_t, wptr>`): the entries
of the map in iteration order, which is ascending key order. -/
abbrev node_map_t := List (Nat × wptr)

namespace node_map_t

/-- The member `std::map::count`: the number of entries with key `k`, 0 or 1. -/
def count : node_map_t → Nat → Nat
  | [], _ => 0
  | (k', _) :: rest, k => if k' = k then 1 else count rest k

/-- The value stored under key `k`, if there is one (`std::map::find`). -/
def find : node_map_t → Nat → Option wptr
  | [], _ => none
  | (k', v) :: rest, k => if k' = k then some v else find rest k

/-- The assignment `m[k] = v`: replaces the value of an entry with key `k`, or
inserts a new entry at its place in key order. -/
def assign : node_map_t → Nat → wptr → node_map_t
  | [], k, v => [(k, v)]
  | (k', v') :: rest, k, v =>
    if k < k' then (k, v) :: (k', v') :: rest
    else if k = k' then (k, v) :: rest
    else (k', v') :: assign rest k v

/-- The keys of the map, in iteration order. -/
def keys (m : node_map_t) : List Nat := m.map Prod.fst

/-- The representation invariant of `std::map`: keys strictly ascending. -/
def ordered (m : node_map_t) : Prop := (keys m).Pairwise (· < ·)

end node_map_t

/-- The data members of `node_ctrl_base`, and the string its virtual
`unique_id()` returns. -/
structure node_ctrl_base where
  unique_id : String
  _args : device_addr_t
  _upstream_nodes : node_map_t
  _downstream_nodes : node_map_t
  deriving DecidableEq

namespace utils

/-- Modelled from the spec: the ascending scan of `utils::node_map_find_first_free`
(`lib/usrp/rfnoc/utils.hpp`, outside the files embedded here): starting at
`port`, step to the next index while the current one is a key of `nodes`, for
at most `fuel` steps. -/
def first_free_from (nodes : node_map_t) : Nat → Nat → Nat
  | 0, port => port
  | fuel + 1, port =>
    if nodes.count port ≠ 0 then first_free_from nodes fuel (port + 1) else port

/-- Modelled from the spec: `utils::node_map_find_first_free` is defined in
`lib/usrp/rfnoc/utils.hpp`, outside the files embedded here. The spec
(4.2, request-output-port): "if `suggestedPort` is the "any" sentinel, scan
ascending from 0 and return the first index not already present as a
downstream port key on this node. If `suggestedPort` is a concrete index,
return it unchanged". The scan is given one step more than the map has
entries, which is enough for it to stop at an index that is not a key. -/
def node_map_find_first_free (ANY_PORT : Nat) (nodes : node_map_t)
    (suggested_port : Nat) : Nat :=
  if suggested_port = ANY_PORT then first_free_from nodes (nodes.length + 1) 0
  else suggested_port

end utils

namespace source_node_ctrl

/-- The message of the exception thrown for a port that is already connected:
`str(boost::format("On node %s, output port %d is already connected.") % unique_id() % port)`. -/
def port_in_use_what (self : node_ctrl_base) (port : Nat) : String :=
  "On node " ++ self.unique_id ++ ", output port " ++ toString port ++ " is already connected."

/-- The member `source_node_ctrl::_request_output_port` (const). -/
def _request_output_port (ANY_PORT : Nat) (self : node_ctrl_base)
    (suggested_port : Nat) (_ : device_addr_t) : Nat × node_ctrl_base :=
  (utils.node_map_find_first_free ANY_PORT self._downstream_nodes suggested_port, self)

/-- The member `source_node_ctrl::_register_downstream_node`. -/
def _register_downstream_node (ANY_PORT : Nat) (is_sink : Nat → Bool)
    (self : node_ctrl_base) (downstream_node : sptr) (port : Nat) :
    Except exception Unit × node_ctrl_base :=
  -- Do all the checks:
  if port = ANY_PORT then
    (.error (.type_error "Invalid input port number."), self)
  else if self._downstream_nodes.count port ≠ 0 then
    (.error (.runtime_error (port_in_use_what self port)), self)
  else if (dynamic_pointer_cast is_sink downstream_node).isNone then
    (.error (.type_error "Attempting to register a non-sink block as downstream."), self)
  else
    (.ok (),
      { self with
        _downstream_nodes := self._downstream_nodes.assign port (wptr_of_sptr downstream_node) })

/-- The member `source_node_ctrl::connect_downstream`. The scoped lock on
`_output_mutex` has no effect on a single sequential call and is not part of
the state. -/
def connect_downstream (ANY_PORT : Nat) (is_sink : Nat → Bool)
    (self : node_ctrl_base) (downstream_node : sptr) (port : Nat)
    (args : device_addr_t) : Except exception Nat × node_ctrl_base :=
  let (port, self) := _request_output_port ANY_PORT self port args
  match _register_downstream_node ANY_PORT is_sink self downstream_node port with
  | (.error e, self) => (.error e, self)
  | (.ok (), self) => (.ok port, self)

end source_node_ctrl

/-! ## Sequences of calls and stored targets -/

/-- The arguments of one `connect_downstream` call. -/
structure connect_call where
  downstream_node : sptr
  port : Nat
  args : device_addr_t

/-- The state of a source node after the `connect_downstream` calls of a list,
made one after the other; a call that throws leaves the state in which the
exception left it and the next call is made on that state. -/
def after_connects (ANY_PORT : Nat) (is_sink : Nat → Bool) :
    node_ctrl_base → List connect_call → node_ctrl_base
  | self, [] => self
  | self, c :: rest =>
    after_connects ANY_PORT is_sink
      (source_node_ctrl.connect_downstream ANY_PORT is_sink self c.downstream_node c.port
        c.args).2 rest

/-- The member `boost::weak_ptr::lock`: the shared pointer to the object a weak
pointer refers to (objects are not destroyed in this model). -/
def lock (w : wptr) : sptr := w

/-- Every target stored in the map passes the cast to `sink_node_ctrl`. -/
def all_sinks (is_sink : Nat → Bool) (m : node_map_t) : Prop :=
  ∀ e ∈ m, dynamic_pointer_cast is_sink (lock e.2) ≠ none

/-! ## Exception classes -/

/-- The classes of the exceptions the embedded code throws; a `catch` clause
tells exceptions apart by class. `uhd::type_error` and `uhd::runtime_error` are
separate classes, neither derived from the other. -/
inductive exception_class where
  | type_error
  | runtime_error
  deriving DecidableEq

/-- The class of an exception. -/
def exception_cls : exception → exception_class
  | .type_error _ => .type_error
  | .runtime_error _ => .runtime_error

/-- The `what()` message of an exception. -/
def exception_what : exception → String
  | .type_error w => w
  | .runtime_error w => w

/-! ## Listing and clearing the connections -/

/-- The member `node_ctrl_base::list_downstream_nodes`: a copy of the map. -/
def list_downstream_nodes (self : node_ctrl_base) : node_map_t × node_ctrl_base :=
  (self._downstream_nodes, self)

/-- The member `node_ctrl_base::list_upstream_nodes`: a copy of the map. -/
def list_upstream_nodes (self : node_ctrl_base) : node_map_t × node_ctrl_base :=
  (self._upstream_nodes, self)

/-- Modelled from the spec: the body of `node_ctrl_base::clear` is in
`node_ctrl_base.cpp`, outside the files embedded here; the header declares it
with the comment "Clears the list of connected nodes." The spec (4.1, clear):
"empties both neighbor maps unconditionally". -/
def clear (self : node_ctrl_base) : Unit × node_ctrl_base :=
  ((), { self with _upstream_nodes := [], _downstream_nodes := [] })

/-! ## Results of a sequence of calls -/

/-- The results of the `connect_downstream` calls of a list, made one after the
other on a source node, and the state of the node after the last call. -/
def connect_results (ANY_PORT : Nat) (is_sink : Nat → Bool) :
    node_ctrl_base → List connect_call → List (Except exception Nat) × node_ctrl_base
  | self, [] => ([], self)
  | self, c :: rest =>
    ((source_node_ctrl.connect_downstream ANY_PORT is_sink self c.downstream_node c.port
        c.args).1 ::
      (connect_results ANY_PORT is_sink
        (source_node_ctrl.connect_downstream ANY_PORT is_sink self c.downstream_node c.port
          c.args).2 rest).1,
     (connect_results ANY_PORT is_sink
        (source_node_ctrl.connect_downstream ANY_PORT is_sink self c.downstream_node c.port
          c.args).2 rest).2)

/-! ## The node objects of a graph -/

/-- The node objects that exist, each with its address. -/
abbrev node_heap := List (Nat × node_ctrl_base)

namespace node_heap

/-- The object at an address, if there is one. -/
def object : node_heap → Nat → Option node_ctrl_base
  | [], _ => none
  | (a', obj) :: rest, a => if a' = a then some obj else object rest a

/-- The heap in which the object at address `a` has the state `obj` and every
other object is as before. -/
def store (h : node_heap) (a : Nat) (obj : node_ctrl_base) : node_heap :=
  h.map (fun e => if e.1 = a then (a, obj) else e)

/-- The addresses of the objects. -/
def addresses (h : node_heap) : List Nat := h.map Prod.fst

/-- The member `boost::weak_ptr::lock` in a heap: the shared pointer to the
object a weak pointer refers to, or a null pointer when the weak pointer is
empty or no object exists at its address (a stale reference). -/
def lock (h : node_heap) (w : wptr) : sptr :=
  match w with
  | none => none
  | some c => if (h.object c).isSome then some c else none

end node_heap

/-- The call `connect_downstream(downstream_node, port, args)` on the object at
address `a` of a heap: the result of the call and the heap in which the object
at `a` has the state after the call. There is no call on an address without
object. -/
def call_connect_downstream (ANY_PORT : Nat) (is_sink : Nat → Bool) (h : node_heap)
    (a : Nat) (downstream_node : sptr) (port : Nat) (args : device_addr_t) :
    Option (Except exception Nat × node_heap) :=
  match h.object a with
  | none => none
  | some self =>
    some ((source_node_ctrl.connect_downstream ANY_PORT is_sink self downstream_node port
        args).1,
      h.store a (source_node_ctrl.connect_downstream ANY_PORT is_sink self downstream_node
        port args).2)

/-! ## The typed search -/

/-- Modelled from the spec: part of `node_ctrl_base::_find_child_node`
(`node_ctrl_base.ipp`, outside the files embedded here). The neighbours of the
node at address `n` in the direction of the search, in the iteration order of
its neighbour map; stale references are skipped. -/
def child_nodes (h : node_heap) (downstream : Bool) (n : Nat) : List Nat :=
  match h.object n with
  | none => []
  | some obj =>
    (if downstream then (list_downstream_nodes obj).1 else (list_upstream_nodes obj).1).filterMap
      (fun e => h.lock e.2)

/-- Modelled from the spec: the state of the search of
`node_ctrl_base::_find_child_node` (`node_ctrl_base.ipp`, outside the files
embedded here): the nodes found and not yet expanded, the nodes visited so
far, the nodes expanded so far (those whose neighbours were read), and the
matches, the last two in order of discovery. -/
structure search_state where
  queue : List Nat
  explored : List Nat
  expanded : List Nat
  results : List Nat
  deriving DecidableEq

/-- Modelled from the spec: part of `node_ctrl_base::_find_child_node`
(`node_ctrl_base.ipp`, outside the files embedded here). One neighbour met
during the search: nothing happens when it was visited before; otherwise it is
marked as visited, and it is a match, where its branch ends, when it is of
type `T`, and waits to be expanded when it is not. -/
def visit (is_T : Nat → Bool) (st : search_state) (c : Nat) : search_state :=
  if c ∈ st.explored then st
  else if is_T c then
    { st with explored := c :: st.explored, results := st.results ++ [c] }
  else
    { st with explored := c :: st.explored, queue := st.queue ++ [c] }

/-- Modelled from the spec: the loop of `node_ctrl_base::_find_child_node`
(`node_ctrl_base.ipp`, outside the files embedded here): while a node waits to
be expanded, take the first and visit its neighbours in order. With `fuel`
expansions allowed; `none` when nodes still wait after that many. -/
def search_loop (h : node_heap) (downstream : Bool) (is_T : Nat → Bool) :
    Nat → search_state → Option search_state
  | 0, st => if st.queue = [] then some st else none
  | fuel + 1, st =>
    match st.queue with
    | [] => some st
    | n :: rest =>
      search_loop h downstream is_T fuel
        ((child_nodes h downstream n).foldl (visit is_T)
          { st with queue := rest, expanded := st.expanded ++ [n] })

/-- Modelled from the spec: `node_ctrl_base::_find_child_node` is defined in
`node_ctrl_base.ipp`, outside the files embedded here. The spec (4.1,
branch-limited breadth-first search): "explore neighbors level by level. For
every traversal branch [...] stop extending that branch as soon as a node
satisfying T is found; the search does not continue past a match on that
branch, but sibling branches are still explored independently. Nodes already
visited in the current search are never revisited [...] Output: ordered
sequence of matching nodes, in order of discovery [...] Unresolvable (stale)
neighbor references encountered mid-traversal are silently skipped". The
search starts at the node `self`, which counts as visited; it is allowed one
expansion more than the heap has objects. -/
def _find_child_node (h : node_heap) (self : Nat) (is_T : Nat → Bool)
    (downstream : Bool) : Option (List Nat) :=
  (search_loop h downstream is_T (h.length + 1)
    { queue := [self], explored := [self], expanded := [], results := [] }).map
    (fun st => st.results)

/-- The member template `node_ctrl_base::find_downstream_node<T>`. -/
def find_downstream_node (h : node_heap) (self : Nat) (is_T : Nat → Bool) :
    Option (List Nat) :=
  _find_child_node h self is_T true

/-- The member template `node_ctrl_base::find_upstream_node<T>`. -/
def find_upstream_node (h : node_heap) (self : Nat) (is_T : Nat → Bool) :
    Option (List Nat) :=
  _find_child_node h self is_T false

/-- The nodes reached from `self` along a branch on which no node after `self`
is of type `T`. -/
inductive open_branch (h : node_heap) (downstream : Bool) (is_T : Nat → Bool)
    (self : Nat) : Nat → Prop where
  | start : open_branch h downstream is_T self self
  | next (n c : Nat) : open_branch h downstream is_T self n →
      c ∈ child_nodes h downstream n → is_T c = false →
      open_branch h downstream is_T self c

/-- The number of addresses of a list that are not among the visited nodes. -/
def unexplored : List Nat → List Nat → Nat
  | [], _ => 0
  | a :: rest, ex => (if a ∈ ex then 0 else 1) + unexplored rest ex

/-- The bound on the expansions still to come in a search: the nodes that wait,
and the objects not yet visited. -/
def search_measure (h : node_heap) (st : search_state) : Nat :=
  st.queue.length + unexplored h.addresses st.explored

/-- The invariant of the search from `self`: the nodes expanded or waiting are
pairwise different and visited; so are the matches; every waiting node is on
an open branch; every match is of type `T` and a neighbour of a node on an
open branch. -/
def search_inv (h : node_heap) (downstream : Bool) (is_T : Nat → Bool) (self : Nat)
    (st : search_state) : Prop :=
  (st.expanded ++ st.queue).Nodup ∧
  (∀ x ∈ st.expanded ++ st.queue, x ∈ st.explored) ∧
  st.results.Nodup ∧
  (∀ x ∈ st.results, x ∈ st.explored) ∧
  (∀ x ∈ st.queue, open_branch h downstream is_T self x) ∧
  (∀ r ∈ st.results, is_T r = true ∧
    ∃ n, open_branch h downstream is_T self n ∧ r ∈ child_nodes h downstream n)

/-- The bookkeeping of the search from `self`: `self` is visited and is expanded
or waits; no match is `self`; a visited node of type `T` other than `self` is
among the matches; a visited node not of type `T` is expanded or waits. -/
def search_marks (is_T : Nat → Bool) (self : Nat) (st : search_state) : Prop :=
  self ∈ st.explored ∧
  self ∈ st.expanded ++ st.queue ∧
  (∀ r ∈ st.results, r ≠ self) ∧
  (∀ x ∈ st.explored, is_T x = true → x ≠ self → x ∈ st.results) ∧
  (∀ x ∈ st.explored, is_T x = false → x ∈ st.expanded ++ st.queue)

/-- Every neighbour of an expanded node is visited. -/
def search_closed (h : node_heap) (downstream : Bool) (st : search_state) : Prop :=
  ∀ m ∈ st.expanded, ∀ c ∈ child_nodes h downstream m, c ∈ st.explored

/-! ## Concrete nodes

Small node states and a class table, used to evaluate the member functions. -/

namespace examples

/-- A value for `ANY_PORT`: the largest 64-bit `size_t`. -/
def any_port : Nat := 18446744073709551615

/-- A class table: the objects at addresses 2, 4 and 6 are instances of
`sink_node_ctrl`, no other object is. -/
def sinks : Nat → Bool := fun a => a == 2 || a == 4 || a == 6

/-- A source node without connections. -/
def fresh : node_ctrl_base :=
  { unique_id := "0/Radio_0", _args := [], _upstream_nodes := [], _downstream_nodes := [] }

/-- A source node with downstream connections at ports 0, 1 and 3, and one
upstream connection. -/
def busy : node_ctrl_base :=
  { unique_id := "0/DDC_0", _args := [("rate", "1e6")], _upstream_nodes := [(0, some 5)],
    _downstream_nodes := [(0, some 2), (1, some 4), (3, some 6)] }

/-- A class table for the search: the objects at addresses 3 and 4 are of the
type `C` searched for, no other object is. -/
def type_C : Nat → Bool := fun a => a == 3 || a == 4

/-- A node with one downstream connection, at port 0. -/
def feeding (id : String) (target : Nat) : node_ctrl_base :=
  { unique_id := id, _args := [], _upstream_nodes := [],
    _downstream_nodes := [(0, some target)] }

/-- The chain A -> B -> C1 -> C2 of the objects at addresses 1, 2, 3 and 4. -/
def chain : node_heap :=
  [(1, feeding "A" 2), (2, feeding "B" 3), (3, feeding "C1" 4),
    (4, { unique_id := "C2", _args := [], _upstream_nodes := [], _downstream_nodes := [] })]

/-- A cycle 1 -> 2 -> 3 -> 1 with a second connection 1 -> 3 and a stale
reference at node 2. -/
def cycle : node_heap :=
  [(1, { unique_id := "A", _args := [], _upstream_nodes := [],
         _downstream_nodes := [(0, some 2), (1, some 3)] }),
   (2, { unique_id := "B", _args := [], _upstream_nodes := [],
         _downstream_nodes := [(0, some 3), (1, some 9)] }),
   (3, feeding "C1" 1)]

/-- The chain 10 -> 20 -> 30 -> 40 wired on the ports 7, 2 and 5, with a second
object, not connected, at address 50. -/
def wired : node_heap :=
  [(40, { unique_id := "C2", _args := [], _upstream_nodes := [], _downstream_nodes := [] }),
   (50, { unique_id := "X", _args := [], _upstream_nodes := [], _downstream_nodes := [] }),
   (10, { unique_id := "A", _args := [], _upstream_nodes := [],
          _downstream_nodes := [(7, some 20)] }),
   (30, { unique_id := "C1", _args := [], _upstream_nodes := [(0, some 20)],
          _downstream_nodes := [(5, some 40)] }),
   (20, { unique_id := "B", _args := [], _upstream_nodes := [],
          _downstream_nodes := [(2, some 30)] })]

/-- A class table for the search in `wired`: the objects at addresses 30 and 40 are
of the type searched for. -/
def type_D : Nat → Bool := fun a => a == 30 || a == 40

end examples

/-! ## Lemmas on `node_map_t` -/

theorem node_map_count_le_one (m : node_map_t) (k : Nat) : m.count k ≤ 1 := by
  induction m with
  | nil => simp [node_map_t.count]
  | cons e rest ih =>
    obtain ⟨k', v⟩ := e
    by_cases h : k' = k <;> simp [node_map_t.count, h, ih]

theorem node_map_count_eq_zero_iff (m : node_map_t) (k : Nat) :
    m.count k = 0 ↔ m.find k = none := by
  induction m with
  | nil => simp [node_map_t.count, node_map_t.find]
  | cons e rest ih =>
    obtain ⟨k', v⟩ := e
    by_cases h : k' = k <;> simp [node_map_t.count, node_map_t.find, h, ih]

theorem node_map_count_ne_zero_iff_mem (m : node_map_t) (k : Nat) :
    m.count k ≠ 0 ↔ k ∈ m.keys := by
  induction m with
  | nil => simp [node_map_t.count, node_map_t.keys]
  | cons e rest ih =>
    obtain ⟨k', v⟩ := e
    simp only [node_map_t.keys] at ih
    by_cases h : k' = k
    · simp [node_map_t.count, node_map_t.keys, h]
    · have h' : ¬ k = k' := fun e => h e.symm
      simp [node_map_t.count, node_map_t.keys, h, h', ih]

theorem node_map_find_assign (m : node_map_t) (k : Nat) (v : wptr) (q : Nat) :
    (m.assign k v).find q = if q = k then some v else m.find q := by
  induction m with
  | nil =>
    by_cases h : k = q
    · simp [node_map_t.assign, node_map_t.find, h]
    · have h' : ¬ q = k := fun e => h e.symm
      simp [node_map_t.assign, node_map_t.find, h, h']
  | cons e rest ih =>
    obtain ⟨k', v'⟩ := e
    simp only [node_map_t.assign]
    by_cases h1 : k < k'
    · rw [if_pos h1]
      by_cases h : k = q
      · simp [node_map_t.find, h]
      · have h' : ¬ q = k := fun e => h e.symm
        simp [node_map_t.find, h, h']
    · rw [if_neg h1]
      by_cases h2 : k = k'
      · rw [if_pos h2]
        by_cases h : k = q
        · simp [node_map_t.find, h]
        · have h' : ¬ q = k := fun e => h e.symm
          have h3 : ¬ k' = q := fun e => h (h2.trans e)
          simp [node_map_t.find, h, h', h3]
      · rw [if_neg h2]
        by_cases h : k' = q
        · have h' : ¬ q = k := fun e => h2 (e.symm.trans h.symm)
          simp [node_map_t.find, h, h']
        · simp [node_map_t.find, h, ih]

theorem node_map_count_assign (m : node_map_t) (k : Nat) (v : wptr) (q : Nat) :
    (m.assign k v).count q = if q = k then 1 else m.count q := by
  induction m with
  | nil =>
    by_cases h : k = q
    · simp [node_map_t.assign, node_map_t.count, h]
    · have h' : ¬ q = k := fun e => h e.symm
      simp [node_map_t.assign, node_map_t.count, h, h']
  | cons e rest ih =>
    obtain ⟨k', v'⟩ := e
    simp only [node_map_t.assign]
    by_cases h1 : k < k'
    · rw [if_pos h1]
      by_cases h : k = q
      · simp [node_map_t.count, h]
      · have h' : ¬ q = k := fun e => h e.symm
        simp [node_map_t.count, h, h']
    · rw [if_neg h1]
      by_cases h2 : k = k'
      · rw [if_pos h2]
        by_cases h : k = q
        · simp [node_map_t.count, h]
        · have h' : ¬ q = k := fun e => h e.symm
          have h3 : ¬ k' = q := fun e => h (h2.trans e)
          simp [node_map_t.count, h, h', h3]
      · rw [if_neg h2]
        by_cases h : k' = q
        · have h' : ¬ q = k := fun e => h2 (e.symm.trans h.symm)
          simp [node_map_t.count, h, h']
        · simp [node_map_t.count, h, ih]

theorem node_map_length_assign (m : node_map_t) (k : Nat) (v : wptr)
    (h : m.count k = 0) : (m.assign k v).length = m.length + 1 := by
  induction m with
  | nil => simp [node_map_t.assign]
  | cons e rest ih =>
    obtain ⟨k', v'⟩ := e
    simp only [node_map_t.count] at h
    by_cases hk : k' = k
    · simp [hk] at h
    · simp only [hk, if_false] at h
      have hk' : ¬ k = k' := fun e => hk e.symm
      simp only [node_map_t.assign]
      by_cases h1 : k < k'
      · simp [h1]
      · simp [h1, hk', ih h]

theorem node_map_mem_assign (m : node_map_t) (k : Nat) (v : wptr) (e : Nat × wptr)
    (h : e ∈ m.assign k v) : e = (k, v) ∨ e ∈ m := by
  induction m with
  | nil =>
    simp only [node_map_t.assign, List.mem_singleton] at h
    exact Or.inl h
  | cons e' rest ih =>
    obtain ⟨k', v'⟩ := e'
    simp only [node_map_t.assign] at h
    by_cases h1 : k < k'
    · rw [if_pos h1] at h
      rcases List.mem_cons.mp h with h | h
      · exact Or.inl h
      · exact Or.inr h
    · rw [if_neg h1] at h
      by_cases h2 : k = k'
      · rw [if_pos h2] at h
        rcases List.mem_cons.mp h with h | h
        · exact Or.inl h
        · exact Or.inr (List.mem_cons_of_mem _ h)
      · rw [if_neg h2] at h
        rcases List.mem_cons.mp h with h | h
        · exact Or.inr (h ▸ List.mem_cons_self _ _)
        · rcases ih h with h | h
          · exact Or.inl h
          · exact Or.inr (List.mem_cons_of_mem _ h)

theorem node_map_keys_assign (m : node_map_t) (k : Nat) (v : wptr) (x : Nat)
    (h : x ∈ (m.assign k v).keys) : x = k ∨ x ∈ m.keys := by
  simp only [node_map_t.keys, List.mem_map] at h ⊢
  obtain ⟨e, he, hx⟩ := h
  rcases node_map_mem_assign m k v e he with h1 | h1
  · left
    rw [← hx, h1]
  · exact Or.inr ⟨e, h1, hx⟩

theorem node_map_ordered_assign (m : node_map_t) (k : Nat) (v : wptr)
    (h : m.ordered) : (m.assign k v).ordered := by
  induction m with
  | nil => simp [node_map_t.assign, node_map_t.ordered, node_map_t.keys]
  | cons e rest ih =>
    obtain ⟨k', v'⟩ := e
    simp only [node_map_t.ordered, node_map_t.keys, List.map_cons, List.pairwise_cons] at h
    obtain ⟨hlt, hrest⟩ := h
    simp only [node_map_t.assign]
    by_cases h1 : k < k'
    · rw [if_pos h1]
      simp only [node_map_t.ordered, node_map_t.keys, List.map_cons, List.pairwise_cons]
      refine ⟨?_, hlt, hrest⟩
      intro x hx
      rcases List.mem_cons.mp hx with hx | hx
      · rw [hx]; exact h1
      · exact Nat.lt_trans h1 (hlt x hx)
    · rw [if_neg h1]
      by_cases h2 : k = k'
      · rw [if_pos h2]
        simp only [node_map_t.ordered, node_map_t.keys, List.map_cons, List.pairwise_cons]
        exact ⟨fun x hx => h2 ▸ hlt x hx, hrest⟩
      · rw [if_neg h2]
        simp only [node_map_t.ordered, node_map_t.keys, List.map_cons, List.pairwise_cons]
        refine ⟨?_, ih hrest⟩
        intro x hx
        rcases node_map_keys_assign rest k v x hx with hx | hx
        · omega
        · exact hlt x hx

/-! ## Lemmas on the port scan -/

theorem first_free_from_least (nodes : node_map_t) :
    ∀ (fuel : Nat) (port : Nat),
      (∃ n, port ≤ n ∧ n < port + fuel ∧ nodes.count n = 0) →
      nodes.count (utils.first_free_from nodes fuel port) = 0 ∧
      ∀ i, port ≤ i → i < utils.first_free_from nodes fuel port → nodes.count i ≠ 0 := by
  intro fuel
  induction fuel with
  | zero =>
    rintro port ⟨n, h1, h2, _⟩
    omega
  | succ fuel ih =>
    rintro port ⟨n, h1, h2, h3⟩
    simp only [utils.first_free_from]
    by_cases hc : nodes.count port ≠ 0
    · rw [if_pos hc]
      have hne : n ≠ port := fun e => hc (e ▸ h3)
      obtain ⟨r1, r2⟩ := ih (port + 1) ⟨n, by omega, by omega, h3⟩
      refine ⟨r1, fun i hi hlt => ?_⟩
      by_cases hip : i = port
      · rw [hip]; exact hc
      · exact r2 i (by omega) hlt
    · rw [if_neg hc]
      refine ⟨not_not.mp hc, fun i hi hlt => ?_⟩
      omega

theorem node_map_exists_free (nodes : node_map_t) :
    ∃ n, n < nodes.length + 1 ∧ nodes.count n = 0 := by
  by_contra hcon
  push_neg at hcon
  have hsub : Finset.range (nodes.length + 1) ⊆ nodes.keys.toFinset := by
    intro n hn
    rw [List.mem_toFinset]
    exact (node_map_count_ne_zero_iff_mem nodes n).mp (hcon n (Finset.mem_range.mp hn))
  have h1 := Finset.card_le_card hsub
  have h2 := List.toFinset_card_le nodes.keys
  simp only [Finset.card_range, node_map_t.keys, List.length_map] at h1 h2
  omega

theorem node_map_find_first_free_any (ANY_PORT : Nat) (nodes : node_map_t) :
    nodes.count (utils.node_map_find_first_free ANY_PORT nodes ANY_PORT) = 0 ∧
    ∀ i, i < utils.node_map_find_first_free ANY_PORT nodes ANY_PORT → nodes.count i ≠ 0 := by
  obtain ⟨n, hn, hfree⟩ := node_map_exists_free nodes
  obtain ⟨r1, r2⟩ :=
    first_free_from_least nodes (nodes.length + 1) 0 ⟨n, Nat.zero_le n, by omega, hfree⟩
  simp only [utils.node_map_find_first_free, if_true]
  exact ⟨r1, fun i hi => r2 i (Nat.zero_le i) hi⟩

theorem node_map_find_first_free_concrete (ANY_PORT : Nat) (nodes : node_map_t)
    (port : Nat) (h : port ≠ ANY_PORT) :
    utils.node_map_find_first_free ANY_PORT nodes port = port := by
  simp [utils.node_map_find_first_free, h]

/-! ## Lemmas on registration -/

theorem register_any_port (ANY_PORT : Nat) (is_sink : Nat → Bool)
    (self : node_ctrl_base) (N : sptr) :
    source_node_ctrl._register_downstream_node ANY_PORT is_sink self N ANY_PORT =
      (.error (.type_error "Invalid input port number."), self) := by
  simp [source_node_ctrl._register_downstream_node]

theorem register_port_in_use (ANY_PORT : Nat) (is_sink : Nat → Bool)
    (self : node_ctrl_base) (N : sptr) (port : Nat)
    (h1 : port ≠ ANY_PORT) (h2 : self._downstream_nodes.count port ≠ 0) :
    source_node_ctrl._register_downstream_node ANY_PORT is_sink self N port =
      (.error (.runtime_error (source_node_ctrl.port_in_use_what self port)), self) := by
  simp [source_node_ctrl._register_downstream_node, h1, h2]

theorem register_not_sink (ANY_PORT : Nat) (is_sink : Nat → Bool)
    (self : node_ctrl_base) (N : sptr) (port : Nat)
    (h1 : port ≠ ANY_PORT) (h2 : self._downstream_nodes.count port = 0)
    (h3 : dynamic_pointer_cast is_sink N = none) :
    source_node_ctrl._register_downstream_node ANY_PORT is_sink self N port =
      (.error (.type_error "Attempting to register a non-sink block as downstream."), self) := by
  simp [source_node_ctrl._register_downstream_node, h1, h2, h3]

theorem register_ok (ANY_PORT : Nat) (is_sink : Nat → Bool)
    (self : node_ctrl_base) (N : sptr) (port : Nat)
    (h1 : port ≠ ANY_PORT) (h2 : self._downstream_nodes.count port = 0)
    (h3 : dynamic_pointer_cast is_sink N ≠ none) :
    source_node_ctrl._register_downstream_node ANY_PORT is_sink self N port =
      (.ok (), { self with
        _downstream_nodes := self._downstream_nodes.assign port (wptr_of_sptr N) }) := by
  simp [source_node_ctrl._register_downstream_node, h1, h2, h3]

theorem connect_downstream_unfold (ANY_PORT : Nat) (is_sink : Nat → Bool)
    (self : node_ctrl_base) (N : sptr) (port : Nat) (args : device_addr_t) :
    source_node_ctrl.connect_downstream ANY_PORT is_sink self N port args =
      match source_node_ctrl._register_downstream_node ANY_PORT is_sink self N
          (utils.node_map_find_first_free ANY_PORT self._downstream_nodes port) with
      | (.error e, self') => (.error e, self')
      | (.ok (), self') =>
        (.ok (utils.node_map_find_first_free ANY_PORT self._downstream_nodes port), self') := by
  rfl

theorem register_cases (ANY_PORT : Nat) (is_sink : Nat → Bool)
    (self : node_ctrl_base) (N : sptr) (port : Nat) :
    (port = ANY_PORT ∧
      source_node_ctrl._register_downstream_node ANY_PORT is_sink self N port =
        (.error (.type_error "Invalid input port number."), self)) ∨
    (port ≠ ANY_PORT ∧ self._downstream_nodes.count port ≠ 0 ∧
      source_node_ctrl._register_downstream_node ANY_PORT is_sink self N port =
        (.error (.runtime_error (source_node_ctrl.port_in_use_what self port)), self)) ∨
    (port ≠ ANY_PORT ∧ self._downstream_nodes.count port = 0 ∧
      dynamic_pointer_cast is_sink N = none ∧
      source_node_ctrl._register_downstream_node ANY_PORT is_sink self N port =
        (.error (.type_error "Attempting to register a non-sink block as downstream."),
          self)) ∨
    (port ≠ ANY_PORT ∧ self._downstream_nodes.count port = 0 ∧
      dynamic_pointer_cast is_sink N ≠ none ∧
      source_node_ctrl._register_downstream_node ANY_PORT is_sink self N port =
        (.ok (), { self with
          _downstream_nodes := self._downstream_nodes.assign port (wptr_of_sptr N) })) := by
  by_cases h1 : port = ANY_PORT
  · left
    subst h1
    exact ⟨rfl, register_any_port port is_sink self N⟩
  · by_cases h2 : self._downstream_nodes.count port = 0
    · by_cases h3 : dynamic_pointer_cast is_sink N = none
      · exact Or.inr (Or.inr (Or.inl
          ⟨h1, h2, h3, register_not_sink ANY_PORT is_sink self N port h1 h2 h3⟩))
      · exact Or.inr (Or.inr (Or.inr
          ⟨h1, h2, h3, register_ok ANY_PORT is_sink self N port h1 h2 h3⟩))
    · exact Or.inr (Or.inl ⟨h1, h2, register_port_in_use ANY_PORT is_sink self N port h1 h2⟩)

theorem connect_downstream_cases (ANY_PORT : Nat) (is_sink : Nat → Bool)
    (self : node_ctrl_base) (N : sptr) (port : Nat) (args : device_addr_t) :
    ((source_node_ctrl._request_output_port ANY_PORT self port args).1 = ANY_PORT ∧
      source_node_ctrl.connect_downstream ANY_PORT is_sink self N port args =
        (.error (.type_error "Invalid input port number."), self)) ∨
    ((source_node_ctrl._request_output_port ANY_PORT self port args).1 ≠ ANY_PORT ∧
      self._downstream_nodes.count
        (source_node_ctrl._request_output_port ANY_PORT self port args).1 ≠ 0 ∧
      source_node_ctrl.connect_downstream ANY_PORT is_sink self N port args =
        (.error (.runtime_error (source_node_ctrl.port_in_use_what self
          (source_node_ctrl._request_output_port ANY_PORT self port args).1)), self)) ∨
    ((source_node_ctrl._request_output_port ANY_PORT self port args).1 ≠ ANY_PORT ∧
      self._downstream_nodes.count
        (source_node_ctrl._request_output_port ANY_PORT self port args).1 = 0 ∧
      dynamic_pointer_cast is_sink N = none ∧
      source_node_ctrl.connect_downstream ANY_PORT is_sink self N port args =
        (.error (.type_error "Attempting to register a non-sink block as downstream."),
          self)) ∨
    ((source_node_ctrl._request_output_port ANY_PORT self port args).1 ≠ ANY_PORT ∧
      self._downstream_nodes.count
        (source_node_ctrl._request_output_port ANY_PORT self port args).1 = 0 ∧
      dynamic_pointer_cast is_sink N ≠ none ∧
      source_node_ctrl.connect_downstream ANY_PORT is_sink self N port args =
        (.ok (source_node_ctrl._request_output_port ANY_PORT self port args).1,
          { self with
            _downstream_nodes := self._downstream_nodes.assign
              (source_node_ctrl._request_output_port ANY_PORT self port args).1
              (wptr_of_sptr N) })) := by
  have hreq : (source_node_ctrl._request_output_port ANY_PORT self port args).1 =
      utils.node_map_find_first_free ANY_PORT self._downstream_nodes port := rfl
  rw [hreq, connect_downstream_unfold]
  rcases register_cases ANY_PORT is_sink self N
      (utils.node_map_find_first_free ANY_PORT self._downstream_nodes port) with
    ⟨h1, h⟩ | ⟨h1, h2, h⟩ | ⟨h1, h2, h3, h⟩ | ⟨h1, h2, h3, h⟩
  · left
    rw [h]
    exact ⟨h1, rfl⟩
  · right; left
    rw [h]
    exact ⟨h1, h2, rfl⟩
  · right; right; left
    rw [h]
    exact ⟨h1, h2, h3, rfl⟩
  · right; right; right
    rw [h]
    exact ⟨h1, h2, h3, rfl⟩

/-! ## Connecting at a concrete port -/

open source_node_ctrl in
/-- C1: for a target that passes the Sink cast and a port `p` that is not
`ANY_PORT` and not a key of the downstream map, `connect_downstream` returns
`p`, and the downstream map afterwards maps `p` to the target, maps every other
port as before, has `p` as its only new key, and has one entry more. -/
theorem connect_downstream_at_unused_port (ANY_PORT : Nat) (is_sink : Nat → Bool)
    (self : node_ctrl_base) (N : sptr) (p : Nat) (args : device_addr_t)
    (hN : dynamic_pointer_cast is_sink N ≠ none) (hp : p ≠ ANY_PORT)
    (hfree : self._downstream_nodes.count p = 0) :
    (connect_downstream ANY_PORT is_sink self N p args).1 = .ok p ∧
    (connect_downstream ANY_PORT is_sink self N p args).2._downstream_nodes.find p
      = some (wptr_of_sptr N) ∧
    (∀ q, q ≠ p →
      (connect_downstream ANY_PORT is_sink self N p args).2._downstream_nodes.find q
        = self._downstream_nodes.find q) ∧
    (∀ q, (connect_downstream ANY_PORT is_sink self N p args).2._downstream_nodes.count q
        = if q = p then 1 else self._downstream_nodes.count q) ∧
    (connect_downstream ANY_PORT is_sink self N p args).2._downstream_nodes.length
      = self._downstream_nodes.length + 1 := by
  have hcall : connect_downstream ANY_PORT is_sink self N p args =
      (.ok p, { self with
        _downstream_nodes := self._downstream_nodes.assign p (wptr_of_sptr N) }) := by
    rw [connect_downstream_unfold, node_map_find_first_free_concrete ANY_PORT _ p hp,
      register_ok ANY_PORT is_sink self N p hp hfree hN]
  rw [hcall]
  refine ⟨rfl, ?_, ?_, ?_, ?_⟩
  · simp [node_map_find_assign]
  · intro q hq
    simp [node_map_find_assign, hq]
  · intro q
    exact node_map_count_assign _ p _ q
  · exact node_map_length_assign _ p _ hfree

open source_node_ctrl in
/-- Witness of C1: connecting the sink at address 2 to port 2 of the node with
ports 0, 1 and 3 in use. -/
theorem connect_downstream_at_unused_port_witness :
    (connect_downstream examples.any_port examples.sinks examples.busy (some 2) 2 []).1
      = .ok 2 ∧
    (connect_downstream examples.any_port examples.sinks examples.busy (some 2) 2
      []).2._downstream_nodes.find 2 = some (wptr_of_sptr (some 2)) ∧
    (∀ q, q ≠ 2 →
      (connect_downstream examples.any_port examples.sinks examples.busy (some 2) 2
        []).2._downstream_nodes.find q = examples.busy._downstream_nodes.find q) ∧
    (∀ q, (connect_downstream examples.any_port examples.sinks examples.busy (some 2) 2
        []).2._downstream_nodes.count q
        = if q = 2 then 1 else examples.busy._downstream_nodes.count q) ∧
    (connect_downstream examples.any_port examples.sinks examples.busy (some 2) 2
      []).2._downstream_nodes.length = examples.busy._downstream_nodes.length + 1 :=
  connect_downstream_at_unused_port examples.any_port examples.sinks examples.busy (some 2) 2 []
    (by decide) (by decide) (by decide)

open source_node_ctrl in
/-- C2: after a successful `connect_downstream` at a port `p` other than
`ANY_PORT`, a second `connect_downstream` at `p` (with any target) throws the
port-in-use `runtime_error`, leaves the node as it was, and `p` is still bound
to the first target. -/
theorem connect_downstream_twice_same_port (ANY_PORT : Nat) (is_sink : Nat → Bool)
    (self self1 : node_ctrl_base) (N1 N2 : sptr) (p r : Nat) (args1 args2 : device_addr_t)
    (hp : p ≠ ANY_PORT)
    (hfirst : connect_downstream ANY_PORT is_sink self N1 p args1 = (.ok r, self1)) :
    connect_downstream ANY_PORT is_sink self1 N2 p args2
      = (.error (.runtime_error (port_in_use_what self1 p)), self1) ∧
    (connect_downstream ANY_PORT is_sink self1 N2 p args2).2._downstream_nodes.find p
      = some (wptr_of_sptr N1) ∧
    (connect_downstream ANY_PORT is_sink self1 N2 p args2).2._downstream_nodes
      = self1._downstream_nodes := by
  rw [connect_downstream_unfold, node_map_find_first_free_concrete ANY_PORT _ p hp] at hfirst
  have hbound : self1._downstream_nodes.find p = some (wptr_of_sptr N1) := by
    by_cases h2 : self._downstream_nodes.count p = 0
    · by_cases h3 : dynamic_pointer_cast is_sink N1 = none
      · rw [register_not_sink ANY_PORT is_sink self N1 p hp h2 h3] at hfirst
        simp at hfirst
      · rw [register_ok ANY_PORT is_sink self N1 p hp h2 h3] at hfirst
        simp only [Prod.mk.injEq] at hfirst
        rw [← hfirst.2]
        simp [node_map_find_assign]
    · rw [register_port_in_use ANY_PORT is_sink self N1 p hp h2] at hfirst
      simp at hfirst
  have hcount : self1._downstream_nodes.count p ≠ 0 := by
    intro h0
    rw [(node_map_count_eq_zero_iff _ p).mp h0] at hbound
    simp at hbound
  have hcall : connect_downstream ANY_PORT is_sink self1 N2 p args2
      = (.error (.runtime_error (port_in_use_what self1 p)), self1) := by
    rw [connect_downstream_unfold, node_map_find_first_free_concrete ANY_PORT _ p hp,
      register_port_in_use ANY_PORT is_sink self1 N2 p hp hcount]
  rw [hcall]
  exact ⟨rfl, hbound, rfl⟩

open source_node_ctrl in
/-- Witness of C2: port 3 of a fresh node is connected to the sink at address 2,
then a connection of the sink at address 4 to port 3 is attempted. -/
theorem connect_downstream_twice_same_port_witness :
    connect_downstream examples.any_port examples.sinks
        { examples.fresh with _downstream_nodes := [(3, some 2)] } (some 4) 3 []
      = (.error (.runtime_error (port_in_use_what
          { examples.fresh with _downstream_nodes := [(3, some 2)] } 3)),
        { examples.fresh with _downstream_nodes := [(3, some 2)] }) ∧
    (connect_downstream examples.any_port examples.sinks
        { examples.fresh with _downstream_nodes := [(3, some 2)] } (some 4) 3
        []).2._downstream_nodes.find 3 = some (wptr_of_sptr (some 2)) ∧
    (connect_downstream examples.any_port examples.sinks
        { examples.fresh with _downstream_nodes := [(3, some 2)] } (some 4) 3
        []).2._downstream_nodes
      = [(3, some 2)] :=
  connect_downstream_twice_same_port examples.any_port examples.sinks examples.fresh
    { examples.fresh with _downstream_nodes := [(3, some 2)] } (some 2) (some 4) 3 3 [] []
    (by decide) (by rfl)

/-! ## Failed registrations -/

open source_node_ctrl in
/-- Counterexample of C3: the object at address 1 is not a sink, and connecting
it to port 3 of the node with ports 0, 1 and 3 in use throws the port-in-use
`runtime_error`, not the non-sink `type_error`; registering it at `ANY_PORT`
throws the invalid-port `type_error`. -/
theorem non_sink_target_other_error :
    dynamic_pointer_cast examples.sinks (some 1) = none ∧
    (connect_downstream examples.any_port examples.sinks examples.busy (some 1) 3 []).1
      = .error (.runtime_error "On node 0/DDC_0, output port 3 is already connected.") ∧
    (connect_downstream examples.any_port examples.sinks examples.busy (some 1) 3 []).1
      ≠ .error (.type_error "Attempting to register a non-sink block as downstream.") ∧
    (_register_downstream_node examples.any_port examples.sinks examples.busy (some 1) 3).1
      ≠ .error (.type_error "Attempting to register a non-sink block as downstream.") ∧
    (_register_downstream_node examples.any_port examples.sinks examples.busy (some 1)
        examples.any_port).1
      = .error (.type_error "Invalid input port number.") ∧
    (_register_downstream_node examples.any_port examples.sinks examples.busy (some 1)
        examples.any_port).1
      ≠ .error (.type_error "Attempting to register a non-sink block as downstream.") := by
  refine ⟨by decide, by rfl, ?_, ?_, by rfl, ?_⟩
  · rw [show (connect_downstream examples.any_port examples.sinks examples.busy (some 1) 3
        []).1 = .error (.runtime_error "On node 0/DDC_0, output port 3 is already connected.")
      from rfl]
    simp
  · rw [show (_register_downstream_node examples.any_port examples.sinks examples.busy
        (some 1) 3).1
        = .error (.runtime_error "On node 0/DDC_0, output port 3 is already connected.")
      from rfl]
    simp
  · rw [show (_register_downstream_node examples.any_port examples.sinks examples.busy
        (some 1) examples.any_port).1 = .error (.type_error "Invalid input port number.")
      from rfl]
    simp

open source_node_ctrl in
/-- C3, amended: for a target that fails the Sink cast, `_register_downstream_node`
and `connect_downstream` throw and leave the node as it was, whatever the port;
the exception is the non-sink `type_error` when the port to register (for
`connect_downstream`, the port `_request_output_port` resolves) is not
`ANY_PORT` and is not a key of the downstream map. -/
theorem non_sink_target_rejected (ANY_PORT : Nat) (is_sink : Nat → Bool)
    (self : node_ctrl_base) (N : sptr) (port : Nat) (args : device_addr_t)
    (hN : dynamic_pointer_cast is_sink N = none) :
    (∃ e, (_register_downstream_node ANY_PORT is_sink self N port).1 = .error e) ∧
    (_register_downstream_node ANY_PORT is_sink self N port).2 = self ∧
    (∃ e, (connect_downstream ANY_PORT is_sink self N port args).1 = .error e) ∧
    (connect_downstream ANY_PORT is_sink self N port args).2 = self ∧
    (port ≠ ANY_PORT → self._downstream_nodes.count port = 0 →
      (_register_downstream_node ANY_PORT is_sink self N port).1
        = .error (.type_error "Attempting to register a non-sink block as downstream.")) ∧
    ((_request_output_port ANY_PORT self port args).1 ≠ ANY_PORT →
      self._downstream_nodes.count (_request_output_port ANY_PORT self port args).1 = 0 →
      (connect_downstream ANY_PORT is_sink self N port args).1
        = .error (.type_error "Attempting to register a non-sink block as downstream.")) := by
  refine ⟨?_, ?_, ?_, ?_, ?_, ?_⟩
  · rcases register_cases ANY_PORT is_sink self N port with
      ⟨_, h⟩ | ⟨_, _, h⟩ | ⟨_, _, _, h⟩ | ⟨_, _, h3, _⟩
    · exact ⟨_, by rw [h]⟩
    · exact ⟨_, by rw [h]⟩
    · exact ⟨_, by rw [h]⟩
    · exact absurd hN h3
  · rcases register_cases ANY_PORT is_sink self N port with
      ⟨_, h⟩ | ⟨_, _, h⟩ | ⟨_, _, _, h⟩ | ⟨_, _, h3, _⟩
    · rw [h]
    · rw [h]
    · rw [h]
    · exact absurd hN h3
  · rcases connect_downstream_cases ANY_PORT is_sink self N port args with
      ⟨_, h⟩ | ⟨_, _, h⟩ | ⟨_, _, _, h⟩ | ⟨_, _, h3, _⟩
    · exact ⟨_, by rw [h]⟩
    · exact ⟨_, by rw [h]⟩
    · exact ⟨_, by rw [h]⟩
    · exact absurd hN h3
  · rcases connect_downstream_cases ANY_PORT is_sink self N port args with
      ⟨_, h⟩ | ⟨_, _, h⟩ | ⟨_, _, _, h⟩ | ⟨_, _, h3, _⟩
    · rw [h]
    · rw [h]
    · rw [h]
    · exact absurd hN h3
  · intro h1 h2
    rw [register_not_sink ANY_PORT is_sink self N port h1 h2 hN]
  · intro h1 h2
    rcases connect_downstream_cases ANY_PORT is_sink self N port args with
      ⟨h1', _⟩ | ⟨_, h2', _⟩ | ⟨_, _, _, h⟩ | ⟨_, _, h3, _⟩
    · exact absurd h1' h1
    · exact absurd h2 h2'
    · rw [h]
    · exact absurd hN h3

open source_node_ctrl in
/-- Witness of C3, amended: the object at address 1, not a sink, and the unused
port 5 of the node with ports 0, 1 and 3 in use. -/
theorem non_sink_target_rejected_witness :
    (connect_downstream examples.any_port examples.sinks examples.busy (some 1) 5 []).1
      = .error (.type_error "Attempting to register a non-sink block as downstream.") ∧
    (connect_downstream examples.any_port examples.sinks examples.busy (some 1) 5 []).2
      = examples.busy :=
  ⟨(non_sink_target_rejected examples.any_port examples.sinks examples.busy (some 1) 5 []
      (by decide)).2.2.2.2.2 (by decide) (by decide),
    (non_sink_target_rejected examples.any_port examples.sinks examples.busy (some 1) 5 []
      (by decide)).2.2.2.1⟩

open source_node_ctrl in
/-- C4: a `_register_downstream_node` or `connect_downstream` call that throws
leaves the node as it was, with both its maps; and the node is changed by the
call only when the port is not `ANY_PORT`, the port is not a key of the
downstream map and the target passes the Sink cast, in which case the call
returns normally. -/
theorem registration_all_or_nothing (ANY_PORT : Nat) (is_sink : Nat → Bool)
    (self : node_ctrl_base) (N : sptr) (port : Nat) (args : device_addr_t) :
    (∀ e, (_register_downstream_node ANY_PORT is_sink self N port).1 = .error e →
      (_register_downstream_node ANY_PORT is_sink self N port).2 = self) ∧
    (∀ e, (connect_downstream ANY_PORT is_sink self N port args).1 = .error e →
      (connect_downstream ANY_PORT is_sink self N port args).2 = self) ∧
    ((_register_downstream_node ANY_PORT is_sink self N port).2 ≠ self →
      port ≠ ANY_PORT ∧ self._downstream_nodes.count port = 0 ∧
      dynamic_pointer_cast is_sink N ≠ none ∧
      (_register_downstream_node ANY_PORT is_sink self N port).1 = .ok ()) ∧
    ((connect_downstream ANY_PORT is_sink self N port args).2 ≠ self →
      (_request_output_port ANY_PORT self port args).1 ≠ ANY_PORT ∧
      self._downstream_nodes.count (_request_output_port ANY_PORT self port args).1 = 0 ∧
      dynamic_pointer_cast is_sink N ≠ none ∧
      (connect_downstream ANY_PORT is_sink self N port args).1
        = .ok (_request_output_port ANY_PORT self port args).1) := by
  refine ⟨?_, ?_, ?_, ?_⟩
  · intro e he
    rcases register_cases ANY_PORT is_sink self N port with
      ⟨_, h⟩ | ⟨_, _, h⟩ | ⟨_, _, _, h⟩ | ⟨_, _, _, h⟩
    · rw [h]
    · rw [h]
    · rw [h]
    · rw [h] at he
      simp at he
  · intro e he
    rcases connect_downstream_cases ANY_PORT is_sink self N port args with
      ⟨_, h⟩ | ⟨_, _, h⟩ | ⟨_, _, _, h⟩ | ⟨_, _, _, h⟩
    · rw [h]
    · rw [h]
    · rw [h]
    · rw [h] at he
      simp at he
  · intro hne
    rcases register_cases ANY_PORT is_sink self N port with
      ⟨_, h⟩ | ⟨_, _, h⟩ | ⟨_, _, _, h⟩ | ⟨h1, h2, h3, h⟩
    · rw [h] at hne; exact absurd rfl hne
    · rw [h] at hne; exact absurd rfl hne
    · rw [h] at hne; exact absurd rfl hne
    · exact ⟨h1, h2, h3, by rw [h]⟩
  · intro hne
    rcases connect_downstream_cases ANY_PORT is_sink self N port args with
      ⟨_, h⟩ | ⟨_, _, h⟩ | ⟨_, _, _, h⟩ | ⟨h1, h2, h3, h⟩
    · rw [h] at hne; exact absurd rfl hne
    · rw [h] at hne; exact absurd rfl hne
    · rw [h] at hne; exact absurd rfl hne
    · exact ⟨h1, h2, h3, by rw [h]⟩

open source_node_ctrl in
/-- Witness of C4: a connection to the port 3 that is in use throws and leaves
the node as it was. -/
theorem registration_all_or_nothing_witness :
    (connect_downstream examples.any_port examples.sinks examples.busy (some 2) 3 []).2
      = examples.busy :=
  (registration_all_or_nothing examples.any_port examples.sinks examples.busy (some 2) 3
    []).2.1 _ rfl

/-! ## Port allocation -/

open source_node_ctrl in
/-- C5: `_request_output_port` with `ANY_PORT` returns an index that is not a
key of the downstream map while every smaller index is a key, and leaves the
node as it is; for a map with keys 0, 1 and 3 the index is 2 and for a map
without keys it is 0. -/
theorem request_output_port_any (ANY_PORT : Nat) (self : node_ctrl_base)
    (args : device_addr_t) :
    self._downstream_nodes.count (_request_output_port ANY_PORT self ANY_PORT args).1 = 0 ∧
    (∀ i, i < (_request_output_port ANY_PORT self ANY_PORT args).1 →
      self._downstream_nodes.count i ≠ 0) ∧
    (_request_output_port ANY_PORT self ANY_PORT args).2 = self ∧
    ((∀ i, self._downstream_nodes.count i ≠ 0 ↔ (i = 0 ∨ i = 1 ∨ i = 3)) →
      (_request_output_port ANY_PORT self ANY_PORT args).1 = 2) ∧
    ((∀ i, self._downstream_nodes.count i = 0) →
      (_request_output_port ANY_PORT self ANY_PORT args).1 = 0) := by
  have hreq : (_request_output_port ANY_PORT self ANY_PORT args).1 =
      utils.node_map_find_first_free ANY_PORT self._downstream_nodes ANY_PORT := rfl
  obtain ⟨hfree, hleast⟩ := node_map_find_first_free_any ANY_PORT self._downstream_nodes
  rw [hreq]
  refine ⟨hfree, hleast, rfl, ?_, ?_⟩
  · intro hK
    have h2 : self._downstream_nodes.count 2 = 0 := by
      by_contra hc
      have := (hK 2).mp hc
      omega
    have hnot : ¬ (2 < utils.node_map_find_first_free ANY_PORT self._downstream_nodes
        ANY_PORT) := fun hlt => hleast 2 hlt h2
    have hge : ¬ (utils.node_map_find_first_free ANY_PORT self._downstream_nodes ANY_PORT
        < 2) := by
      intro hlt
      have hin := (hK (utils.node_map_find_first_free ANY_PORT self._downstream_nodes
        ANY_PORT))
      have hmem : self._downstream_nodes.count
          (utils.node_map_find_first_free ANY_PORT self._downstream_nodes ANY_PORT) ≠ 0 :=
        hin.mpr (by omega)
      exact hmem hfree
    omega
  · intro hK
    by_contra hne
    exact hleast 0 (Nat.pos_of_ne_zero hne) (hK 0)

open source_node_ctrl in
/-- Witness of C5: the node with downstream ports 0, 1 and 3 in use gets port 2,
the node without connections gets port 0. -/
theorem request_output_port_any_witness :
    (_request_output_port examples.any_port examples.busy examples.any_port []).1 = 2 ∧
    (_request_output_port examples.any_port examples.fresh examples.any_port []).1 = 0 :=
  ⟨(request_output_port_any examples.any_port examples.busy []).2.2.2.1 (by
      intro i
      rcases i with _ | _ | _ | _ | i <;>
        simp [examples.busy, node_map_t.count]),
    (request_output_port_any examples.any_port examples.fresh []).2.2.2.2 (by
      intro i
      simp [examples.fresh, node_map_t.count])⟩

open source_node_ctrl in
/-- C6: for a port `p` other than `ANY_PORT`, `_request_output_port` returns `p` and
leaves the node as it is, whether or not `p` is a key of the downstream map;
when `p` is a key, `_register_downstream_node` at the resolved port, and with it
`connect_downstream`, throws the port-in-use `runtime_error`. -/
theorem request_output_port_concrete (ANY_PORT : Nat) (is_sink : Nat → Bool)
    (self : node_ctrl_base) (N : sptr) (p : Nat) (args : device_addr_t)
    (hp : p ≠ ANY_PORT) :
    _request_output_port ANY_PORT self p args = (p, self) ∧
    (self._downstream_nodes.count p ≠ 0 →
      _register_downstream_node ANY_PORT is_sink self N
          (_request_output_port ANY_PORT self p args).1
        = (.error (.runtime_error (port_in_use_what self p)), self) ∧
      connect_downstream ANY_PORT is_sink self N p args
        = (.error (.runtime_error (port_in_use_what self p)), self)) := by
  have hreq : _request_output_port ANY_PORT self p args = (p, self) := by
    simp [_request_output_port, node_map_find_first_free_concrete ANY_PORT _ p hp]
  refine ⟨hreq, fun hc => ?_⟩
  rw [hreq, connect_downstream_unfold, node_map_find_first_free_concrete ANY_PORT _ p hp,
    register_port_in_use ANY_PORT is_sink self N p hp hc]
  exact ⟨rfl, rfl⟩

open source_node_ctrl in
/-- Witness of C6: port 3 of the node with ports 0, 1 and 3 in use. -/
theorem request_output_port_concrete_witness :
    _request_output_port examples.any_port examples.busy 3 [] = (3, examples.busy) ∧
    connect_downstream examples.any_port examples.sinks examples.busy (some 2) 3 []
      = (.error (.runtime_error (port_in_use_what examples.busy 3)), examples.busy) :=
  ⟨(request_output_port_concrete examples.any_port examples.sinks examples.busy (some 2) 3 []
      (by decide)).1,
    ((request_output_port_concrete examples.any_port examples.sinks examples.busy (some 2) 3 []
      (by decide)).2 (by decide)).2⟩

open source_node_ctrl in
/-- C7: when `connect_downstream` returns `r`, then `r` is the port that
`_request_output_port` resolves on the state before the call, `r` is not
`ANY_PORT`, `r` was not a key before, and the state after the call is the state
before with the target stored under `r`, so that `r` maps to the target. -/
theorem connect_downstream_returns_resolved_port (ANY_PORT : Nat) (is_sink : Nat → Bool)
    (self self1 : node_ctrl_base) (N : sptr) (port r : Nat) (args : device_addr_t)
    (hcall : connect_downstream ANY_PORT is_sink self N port args = (.ok r, self1)) :
    r = (_request_output_port ANY_PORT self port args).1 ∧
    r ≠ ANY_PORT ∧
    self._downstream_nodes.count r = 0 ∧
    self1 = { self with
      _downstream_nodes := self._downstream_nodes.assign r (wptr_of_sptr N) } ∧
    self1._downstream_nodes.find r = some (wptr_of_sptr N) := by
  rcases connect_downstream_cases ANY_PORT is_sink self N port args with
    ⟨_, h⟩ | ⟨_, _, h⟩ | ⟨_, _, _, h⟩ | ⟨h1, h2, _, h⟩
  · rw [h] at hcall; simp at hcall
  · rw [h] at hcall; simp at hcall
  · rw [h] at hcall; simp at hcall
  · rw [h] at hcall
    simp only [Prod.mk.injEq, Except.ok.injEq] at hcall
    obtain ⟨hr, hs⟩ := hcall
    rw [← hr, ← hs]
    refine ⟨rfl, h1, h2, rfl, ?_⟩
    simp [node_map_find_assign]

open source_node_ctrl in
/-- Witness of C7: connecting the sink at address 2 with `ANY_PORT` to the node
with ports 0, 1 and 3 in use returns 2 and stores the sink under 2. -/
theorem connect_downstream_returns_resolved_port_witness :
    (2 : Nat) = (_request_output_port examples.any_port examples.busy examples.any_port []).1 ∧
    (2 : Nat) ≠ examples.any_port ∧
    examples.busy._downstream_nodes.count 2 = 0 ∧
    ({ examples.busy with
        _downstream_nodes := [(0, some 2), (1, some 4), (2, some 2), (3, some 6)] } :
      node_ctrl_base)
      = { examples.busy with
        _downstream_nodes := examples.busy._downstream_nodes.assign 2 (wptr_of_sptr (some 2)) } ∧
    node_map_t.find [(0, some 2), (1, some 4), (2, some 2), (3, some 6)] 2
      = some (wptr_of_sptr (some 2)) :=
  connect_downstream_returns_resolved_port examples.any_port examples.sinks examples.busy
    { examples.busy with
      _downstream_nodes := [(0, some 2), (1, some 4), (2, some 2), (3, some 6)] }
    (some 2) examples.any_port 2 [] (by rfl)

/-! ## Registration at the sentinel -/

open source_node_ctrl in
/-- C8: `_register_downstream_node` at `ANY_PORT` throws the invalid-port
`type_error` for every target and leaves the node as it was. -/
theorem register_at_any_port_rejected (ANY_PORT : Nat) (is_sink : Nat → Bool)
    (self : node_ctrl_base) (N : sptr) :
    (_register_downstream_node ANY_PORT is_sink self N ANY_PORT).1
      = .error (.type_error "Invalid input port number.") ∧
    (_register_downstream_node ANY_PORT is_sink self N ANY_PORT).2 = self := by
  rw [register_any_port ANY_PORT is_sink self N]
  exact ⟨rfl, rfl⟩

/-! ## Invariants of the downstream map -/

theorem register_keeps_any_port_free (ANY_PORT : Nat) (is_sink : Nat → Bool)
    (self : node_ctrl_base) (N : sptr) (port : Nat)
    (h : self._downstream_nodes.count ANY_PORT = 0) :
    (source_node_ctrl._register_downstream_node ANY_PORT is_sink self N
      port).2._downstream_nodes.count ANY_PORT = 0 := by
  rcases register_cases ANY_PORT is_sink self N port with
    ⟨_, hr⟩ | ⟨_, _, hr⟩ | ⟨_, _, _, hr⟩ | ⟨h1, _, _, hr⟩
  · rw [hr]; exact h
  · rw [hr]; exact h
  · rw [hr]; exact h
  · rw [hr]
    have hne : ¬ ANY_PORT = port := fun e => h1 e.symm
    simp [node_map_count_assign, hne, h]

theorem connect_keeps_any_port_free (ANY_PORT : Nat) (is_sink : Nat → Bool)
    (self : node_ctrl_base) (N : sptr) (port : Nat) (args : device_addr_t)
    (h : self._downstream_nodes.count ANY_PORT = 0) :
    (source_node_ctrl.connect_downstream ANY_PORT is_sink self N port
      args).2._downstream_nodes.count ANY_PORT = 0 := by
  rcases connect_downstream_cases ANY_PORT is_sink self N port args with
    ⟨_, hr⟩ | ⟨_, _, hr⟩ | ⟨_, _, _, hr⟩ | ⟨h1, _, _, hr⟩
  · rw [hr]; exact h
  · rw [hr]; exact h
  · rw [hr]; exact h
  · rw [hr]
    have hne : ¬ ANY_PORT = (source_node_ctrl._request_output_port ANY_PORT self port args).1 :=
      fun e => h1 e.symm
    simp [node_map_count_assign, hne, h]

theorem after_connects_keeps_any_port_free (ANY_PORT : Nat) (is_sink : Nat → Bool)
    (calls : List connect_call) :
    ∀ self : node_ctrl_base, self._downstream_nodes.count ANY_PORT = 0 →
      (after_connects ANY_PORT is_sink self calls)._downstream_nodes.count ANY_PORT = 0 := by
  induction calls with
  | nil => intro self h; exact h
  | cons c rest ih =>
    intro self h
    simp only [after_connects]
    exact ih _ (connect_keeps_any_port_free ANY_PORT is_sink self _ _ _ h)

theorem all_sinks_assign (is_sink : Nat → Bool) (m : node_map_t) (k : Nat) (N : sptr)
    (h : all_sinks is_sink m) (hN : dynamic_pointer_cast is_sink N ≠ none) :
    all_sinks is_sink (m.assign k (wptr_of_sptr N)) := by
  intro e he
  rcases node_map_mem_assign m k _ e he with h1 | h1
  · rw [h1]
    exact hN
  · exact h e h1

theorem register_keeps_all_sinks (ANY_PORT : Nat) (is_sink : Nat → Bool)
    (self : node_ctrl_base) (N : sptr) (port : Nat)
    (h : all_sinks is_sink self._downstream_nodes) :
    all_sinks is_sink (source_node_ctrl._register_downstream_node ANY_PORT is_sink self N
      port).2._downstream_nodes := by
  rcases register_cases ANY_PORT is_sink self N port with
    ⟨_, hr⟩ | ⟨_, _, hr⟩ | ⟨_, _, _, hr⟩ | ⟨_, _, h3, hr⟩
  · rw [hr]; exact h
  · rw [hr]; exact h
  · rw [hr]; exact h
  · rw [hr]
    exact all_sinks_assign is_sink _ port N h h3

theorem connect_keeps_all_sinks (ANY_PORT : Nat) (is_sink : Nat → Bool)
    (self : node_ctrl_base) (N : sptr) (port : Nat) (args : device_addr_t)
    (h : all_sinks is_sink self._downstream_nodes) :
    all_sinks is_sink (source_node_ctrl.connect_downstream ANY_PORT is_sink self N port
      args).2._downstream_nodes := by
  rcases connect_downstream_cases ANY_PORT is_sink self N port args with
    ⟨_, hr⟩ | ⟨_, _, hr⟩ | ⟨_, _, _, hr⟩ | ⟨_, _, h3, hr⟩
  · rw [hr]; exact h
  · rw [hr]; exact h
  · rw [hr]; exact h
  · rw [hr]
    exact all_sinks_assign is_sink _ _ N h h3

theorem after_connects_keeps_all_sinks (ANY_PORT : Nat) (is_sink : Nat → Bool)
    (calls : List connect_call) :
    ∀ self : node_ctrl_base, all_sinks is_sink self._downstream_nodes →
      all_sinks is_sink (after_connects ANY_PORT is_sink self calls)._downstream_nodes := by
  induction calls with
  | nil => intro self h; exact h
  | cons c rest ih =>
    intro self h
    simp only [after_connects]
    exact ih _ (connect_keeps_all_sinks ANY_PORT is_sink self _ _ _ h)

open source_node_ctrl in
/-- C9: when `ANY_PORT` is not a key of the downstream map, it is not a key after
a `connect_downstream` call, after a `_register_downstream_node` call, or after
any sequence of `connect_downstream` calls, whatever the arguments and whether
the calls throw; so it is not a key in any state reached by `connect_downstream`
calls from a node with an empty downstream map. -/
theorem any_port_never_stored (ANY_PORT : Nat) (is_sink : Nat → Bool)
    (self : node_ctrl_base) (N : sptr) (port : Nat) (args : device_addr_t)
    (calls : List connect_call)
    (h : self._downstream_nodes.count ANY_PORT = 0) :
    (connect_downstream ANY_PORT is_sink self N port args).2._downstream_nodes.count
      ANY_PORT = 0 ∧
    (_register_downstream_node ANY_PORT is_sink self N port).2._downstream_nodes.count
      ANY_PORT = 0 ∧
    (after_connects ANY_PORT is_sink self calls)._downstream_nodes.count ANY_PORT = 0 ∧
    (∀ start : node_ctrl_base, start._downstream_nodes = [] →
      (after_connects ANY_PORT is_sink start calls)._downstream_nodes.count ANY_PORT = 0) := by
  refine ⟨connect_keeps_any_port_free ANY_PORT is_sink self N port args h,
    register_keeps_any_port_free ANY_PORT is_sink self N port h,
    after_connects_keeps_any_port_free ANY_PORT is_sink calls self h, ?_⟩
  intro start hempty
  apply after_connects_keeps_any_port_free ANY_PORT is_sink calls start
  rw [hempty]
  rfl

open source_node_ctrl in
/-- Witness of C9: on the node with ports 0, 1 and 3 in use, a registration at
`ANY_PORT`, a connection with `ANY_PORT`, and three connections from a fresh
node, one of them with `ANY_PORT` and one with a target that is not a sink. -/
theorem any_port_never_stored_witness :
    (connect_downstream examples.any_port examples.sinks examples.busy (some 2)
      examples.any_port []).2._downstream_nodes.count examples.any_port = 0 ∧
    (_register_downstream_node examples.any_port examples.sinks examples.busy (some 2)
      examples.any_port).2._downstream_nodes.count examples.any_port = 0 ∧
    (after_connects examples.any_port examples.sinks examples.busy
      [⟨some 2, examples.any_port, []⟩, ⟨some 1, 7, []⟩,
        ⟨some 4, 7, []⟩])._downstream_nodes.count examples.any_port = 0 ∧
    (∀ start : node_ctrl_base, start._downstream_nodes = [] →
      (after_connects examples.any_port examples.sinks start
        [⟨some 2, examples.any_port, []⟩, ⟨some 1, 7, []⟩,
          ⟨some 4, 7, []⟩])._downstream_nodes.count examples.any_port = 0) :=
  any_port_never_stored examples.any_port examples.sinks examples.busy (some 2)
    examples.any_port [] [⟨some 2, examples.any_port, []⟩, ⟨some 1, 7, []⟩, ⟨some 4, 7, []⟩]
    (by decide)

open source_node_ctrl in
/-- C10: when every target stored in the downstream map passes the Sink cast, the
same holds after a `connect_downstream` call, after a `_register_downstream_node`
call, and after any sequence of `connect_downstream` calls; so it holds in any
state reached by `connect_downstream` calls from a node with an empty
downstream map. -/
theorem downstream_targets_are_sinks (ANY_PORT : Nat) (is_sink : Nat → Bool)
    (self : node_ctrl_base) (N : sptr) (port : Nat) (args : device_addr_t)
    (calls : List connect_call)
    (h : all_sinks is_sink self._downstream_nodes) :
    all_sinks is_sink
      (connect_downstream ANY_PORT is_sink self N port args).2._downstream_nodes ∧
    all_sinks is_sink
      (_register_downstream_node ANY_PORT is_sink self N port).2._downstream_nodes ∧
    all_sinks is_sink (after_connects ANY_PORT is_sink self calls)._downstream_nodes ∧
    (∀ start : node_ctrl_base, start._downstream_nodes = [] →
      all_sinks is_sink (after_connects ANY_PORT is_sink start calls)._downstream_nodes) := by
  refine ⟨connect_keeps_all_sinks ANY_PORT is_sink self N port args h,
    register_keeps_all_sinks ANY_PORT is_sink self N port h,
    after_connects_keeps_all_sinks ANY_PORT is_sink calls self h, ?_⟩
  intro start hempty
  apply after_connects_keeps_all_sinks ANY_PORT is_sink calls start
  rw [hempty]
  intro e he
  simp at he

open source_node_ctrl in
/-- Witness of C10: the node with ports 0, 1 and 3 connected to the sinks at
addresses 2, 4 and 6, a connection of the non-sink at address 1, and a
sequence of connections with sink and non-sink targets. -/
theorem downstream_targets_are_sinks_witness :
    all_sinks examples.sinks
      (connect_downstream examples.any_port examples.sinks examples.busy (some 1) 5
        []).2._downstream_nodes ∧
    all_sinks examples.sinks
      (_register_downstream_node examples.any_port examples.sinks examples.busy (some 1)
        5).2._downstream_nodes ∧
    all_sinks examples.sinks
      (after_connects examples.any_port examples.sinks examples.busy
        [⟨some 2, examples.any_port, []⟩, ⟨some 1, 7, []⟩,
          ⟨none, 8, []⟩, ⟨some 4, 7, []⟩])._downstream_nodes ∧
    (∀ start : node_ctrl_base, start._downstream_nodes = [] →
      all_sinks examples.sinks
        (after_connects examples.any_port examples.sinks start
          [⟨some 2, examples.any_port, []⟩, ⟨some 1, 7, []⟩,
            ⟨none, 8, []⟩, ⟨some 4, 7, []⟩])._downstream_nodes) :=
  downstream_targets_are_sinks examples.any_port examples.sinks examples.busy (some 1) 5 []
    [⟨some 2, examples.any_port, []⟩, ⟨some 1, 7, []⟩, ⟨none, 8, []⟩, ⟨some 4, 7, []⟩]
    (by
      intro e he
      simp only [examples.busy, List.mem_cons, List.mem_singleton, List.not_mem_nil,
        or_false] at he
      rcases he with rfl | rfl | rfl <;> decide)

/-! ## Effect of a connection on the graph -/

theorem node_heap_store_cons (a' : Nat) (o' : node_ctrl_base) (rest : node_heap) (a : Nat)
    (obj : node_ctrl_base) :
    node_heap.store ((a', o') :: rest) a obj
      = (if a' = a then (a, obj) else (a', o')) :: node_heap.store rest a obj := rfl

theorem node_heap_object_store (h : node_heap) (a : Nat) (obj : node_ctrl_base) (b : Nat) :
    (h.store a obj).object b
      = if b = a then (h.object a).map (fun _ => obj) else h.object b := by
  induction h with
  | nil => simp [node_heap.store, node_heap.object]
  | cons e rest ih =>
    obtain ⟨a', o'⟩ := e
    rw [node_heap_store_cons]
    by_cases h1 : a' = a
    · rw [if_pos h1]
      by_cases h2 : b = a
      · have h3 : a' = b := h1.trans h2.symm
        simp [node_heap.object, h1, h2]
      · have h3 : ¬ a' = b := fun e => h2 (e.symm.trans h1)
        have h4 : ¬ a = b := fun e => h2 e.symm
        simp only [node_heap.object, if_neg h3, if_neg h4, if_neg h2]
        rw [ih, if_neg h2]
    · rw [if_neg h1]
      by_cases h2 : b = a
      · have h3 : ¬ a' = b := fun e => h1 (e.trans h2)
        simp only [node_heap.object, if_neg h3, if_neg h1, if_pos h2]
        rw [ih, if_pos h2]
      · by_cases h3 : a' = b
        · simp only [node_heap.object, if_pos h3, if_neg h2]
        · simp only [node_heap.object, if_neg h3, if_neg h2]
          rw [ih, if_neg h2]

theorem connect_downstream_keeps_rest (ANY_PORT : Nat) (is_sink : Nat → Bool)
    (self : node_ctrl_base) (N : sptr) (port : Nat) (args : device_addr_t) :
    (source_node_ctrl.connect_downstream ANY_PORT is_sink self N port args).2._upstream_nodes
      = self._upstream_nodes ∧
    (source_node_ctrl.connect_downstream ANY_PORT is_sink self N port args).2._args
      = self._args ∧
    (source_node_ctrl.connect_downstream ANY_PORT is_sink self N port args).2.unique_id
      = self.unique_id := by
  rcases connect_downstream_cases ANY_PORT is_sink self N port args with
    ⟨_, hr⟩ | ⟨_, _, hr⟩ | ⟨_, _, _, hr⟩ | ⟨_, _, _, hr⟩ <;>
  · rw [hr]
    exact ⟨rfl, rfl, rfl⟩

open source_node_ctrl in
/-- C11: a `connect_downstream` call on the object `A` at address `a` puts the
state after the call at `a` and leaves every other object of the heap as it
was, with both its maps, the target of the call included; and the state of
`A` after the call has the upstream map, the arguments and the identity it had
before. -/
theorem connect_downstream_changes_only_source (ANY_PORT : Nat) (is_sink : Nat → Bool)
    (h : node_heap) (a : Nat) (A : node_ctrl_base) (N : sptr) (port : Nat)
    (args : device_addr_t) (hA : h.object a = some A) :
    call_connect_downstream ANY_PORT is_sink h a N port args
      = some ((connect_downstream ANY_PORT is_sink A N port args).1,
          h.store a (connect_downstream ANY_PORT is_sink A N port args).2) ∧
    (h.store a (connect_downstream ANY_PORT is_sink A N port args).2).object a
      = some (connect_downstream ANY_PORT is_sink A N port args).2 ∧
    (∀ b, b ≠ a →
      (h.store a (connect_downstream ANY_PORT is_sink A N port args).2).object b
        = h.object b) ∧
    (connect_downstream ANY_PORT is_sink A N port args).2._upstream_nodes
      = A._upstream_nodes ∧
    (connect_downstream ANY_PORT is_sink A N port args).2._args = A._args ∧
    (connect_downstream ANY_PORT is_sink A N port args).2.unique_id = A.unique_id := by
  refine ⟨?_, ?_, ?_, connect_downstream_keeps_rest ANY_PORT is_sink A N port args⟩
  · simp [call_connect_downstream, hA]
  · rw [node_heap_object_store, if_pos rfl, hA]
    rfl
  · intro b hb
    rw [node_heap_object_store, if_neg hb]

open source_node_ctrl in
/-- Witness of C11: in the chain, node A at address 1 is connected on port 5 to
the sink at address 2; the objects at 2, 3 and 4 are as before. -/
theorem connect_downstream_changes_only_source_witness :
    (∀ b, b ≠ 1 →
      (examples.chain.store 1 (connect_downstream examples.any_port examples.sinks
        (examples.feeding "A" 2) (some 2) 5 []).2).object b = examples.chain.object b) ∧
    (connect_downstream examples.any_port examples.sinks (examples.feeding "A" 2) (some 2) 5
      []).2._upstream_nodes = (examples.feeding "A" 2)._upstream_nodes :=
  ⟨(connect_downstream_changes_only_source examples.any_port examples.sinks examples.chain 1
      (examples.feeding "A" 2) (some 2) 5 [] (by rfl)).2.2.1,
    (connect_downstream_changes_only_source examples.any_port examples.sinks examples.chain 1
      (examples.feeding "A" 2) (some 2) 5 [] (by rfl)).2.2.2.1⟩

/-! ## Listing and clearing -/

/-- C14: after `clear` both `list_upstream_nodes` and `list_downstream_nodes`
return the empty map, whatever the node held before; and the two list
functions return the current maps and leave the node as it is. -/
theorem clear_empties_both_maps (self : node_ctrl_base) :
    (list_upstream_nodes (clear self).2).1 = [] ∧
    (list_downstream_nodes (clear self).2).1 = [] ∧
    (list_downstream_nodes self).1 = self._downstream_nodes ∧
    (list_upstream_nodes self).1 = self._upstream_nodes ∧
    (list_downstream_nodes self).2 = self ∧
    (list_upstream_nodes self).2 = self :=
  ⟨rfl, rfl, rfl, rfl, rfl, rfl⟩

/-! ## Kinds of registration errors -/

open source_node_ctrl in
/-- Counterexample of C16: the exception for `ANY_PORT` and the exception for a
target that is not a sink are of the same class, `type_error`. -/
theorem invalid_port_and_non_sink_same_class :
    (_register_downstream_node examples.any_port examples.sinks examples.busy (some 2)
        examples.any_port).1
      = .error (.type_error "Invalid input port number.") ∧
    (_register_downstream_node examples.any_port examples.sinks examples.busy (some 1) 5).1
      = .error (.type_error "Attempting to register a non-sink block as downstream.") ∧
    exception_cls (.type_error "Invalid input port number.")
      = exception_cls (.type_error "Attempting to register a non-sink block as downstream.") :=
  ⟨by rfl, by rfl, by rfl⟩

open source_node_ctrl in
/-- C16, amended: an exception of `_register_downstream_node` is of class
`type_error` with the message "Invalid input port number." for `ANY_PORT`, of
class `runtime_error` for a port in use, and of class `type_error` with the
message "Attempting to register a non-sink block as downstream." for a target
that is not a sink on a free port; the port-in-use exception differs from the
other two by class, and these two differ from each other by message. -/
theorem register_error_kinds (ANY_PORT : Nat) (is_sink : Nat → Bool)
    (self : node_ctrl_base) (N : sptr) (port : Nat) (e : exception)
    (he : (_register_downstream_node ANY_PORT is_sink self N port).1 = .error e) :
    (port = ANY_PORT →
      exception_cls e = .type_error ∧ exception_what e = "Invalid input port number.") ∧
    (port ≠ ANY_PORT → self._downstream_nodes.count port ≠ 0 →
      exception_cls e = .runtime_error ∧ exception_what e = port_in_use_what self port) ∧
    (port ≠ ANY_PORT → self._downstream_nodes.count port = 0 →
      exception_cls e = .type_error ∧
      exception_what e = "Attempting to register a non-sink block as downstream.") ∧
    exception_class.runtime_error ≠ exception_class.type_error ∧
    "Invalid input port number." ≠ "Attempting to register a non-sink block as downstream." := by
  refine ⟨?_, ?_, ?_, by decide, by decide⟩
  · intro hp
    subst hp
    rw [register_any_port port is_sink self N] at he
    simp only [Except.error.injEq] at he
    rw [← he]
    exact ⟨rfl, rfl⟩
  · intro h1 h2
    rw [register_port_in_use ANY_PORT is_sink self N port h1 h2] at he
    simp only [Except.error.injEq] at he
    rw [← he]
    exact ⟨rfl, rfl⟩
  · intro h1 h2
    by_cases h3 : dynamic_pointer_cast is_sink N = none
    · rw [register_not_sink ANY_PORT is_sink self N port h1 h2 h3] at he
      simp only [Except.error.injEq] at he
      rw [← he]
      exact ⟨rfl, rfl⟩
    · rw [register_ok ANY_PORT is_sink self N port h1 h2 h3] at he
      simp at he

open source_node_ctrl in
/-- Witness of C16, amended: the exception for the port 3 that is in use. -/
theorem register_error_kinds_witness :
    exception_cls (.runtime_error (port_in_use_what examples.busy 3)) = .runtime_error ∧
    exception_what (.runtime_error (port_in_use_what examples.busy 3))
      = port_in_use_what examples.busy 3 :=
  (register_error_kinds examples.any_port examples.sinks examples.busy (some 2) 3
    (.runtime_error (port_in_use_what examples.busy 3)) (by rfl)).2.1 (by decide) (by decide)

/-! ## Order of the checks -/

open source_node_ctrl in
/-- C17: `_register_downstream_node` returns normally exactly when the port is not
`ANY_PORT`, is not a key of the downstream map and the target passes the Sink
cast; otherwise the exception is that of the first failing check: invalid port
for `ANY_PORT` whatever the target and the map, port in use for a bound port
whatever the target, and non-sink only for a free port other than `ANY_PORT`. -/
theorem register_succeeds_iff (ANY_PORT : Nat) (is_sink : Nat → Bool)
    (self : node_ctrl_base) (N : sptr) (port : Nat) :
    ((_register_downstream_node ANY_PORT is_sink self N port).1 = .ok () ↔
      (port ≠ ANY_PORT ∧ self._downstream_nodes.count port = 0 ∧
        dynamic_pointer_cast is_sink N ≠ none)) ∧
    (port = ANY_PORT →
      _register_downstream_node ANY_PORT is_sink self N port
        = (.error (.type_error "Invalid input port number."), self)) ∧
    (port ≠ ANY_PORT → self._downstream_nodes.count port ≠ 0 →
      _register_downstream_node ANY_PORT is_sink self N port
        = (.error (.runtime_error (port_in_use_what self port)), self)) ∧
    (port ≠ ANY_PORT → self._downstream_nodes.count port = 0 →
      dynamic_pointer_cast is_sink N = none →
      _register_downstream_node ANY_PORT is_sink self N port
        = (.error (.type_error "Attempting to register a non-sink block as downstream."),
            self)) := by
  refine ⟨?_, ?_, ?_, ?_⟩
  · constructor
    · intro hok
      rcases register_cases ANY_PORT is_sink self N port with
        ⟨_, hr⟩ | ⟨_, _, hr⟩ | ⟨_, _, _, hr⟩ | ⟨h1, h2, h3, _⟩
      · rw [hr] at hok; simp at hok
      · rw [hr] at hok; simp at hok
      · rw [hr] at hok; simp at hok
      · exact ⟨h1, h2, h3⟩
    · rintro ⟨h1, h2, h3⟩
      rw [register_ok ANY_PORT is_sink self N port h1 h2 h3]
  · intro hp
    subst hp
    exact register_any_port port is_sink self N
  · exact register_port_in_use ANY_PORT is_sink self N port
  · exact register_not_sink ANY_PORT is_sink self N port

open source_node_ctrl in
/-- Witness of C17: for the object at address 1, not a sink, registration at
`ANY_PORT` throws the invalid-port exception and registration at the bound
port 3 throws the port-in-use exception. -/
theorem register_succeeds_iff_witness :
    _register_downstream_node examples.any_port examples.sinks examples.busy (some 1)
        examples.any_port
      = (.error (.type_error "Invalid input port number."), examples.busy) ∧
    _register_downstream_node examples.any_port examples.sinks examples.busy (some 1) 3
      = (.error (.runtime_error (port_in_use_what examples.busy 3)), examples.busy) :=
  ⟨(register_succeeds_iff examples.any_port examples.sinks examples.busy (some 1)
      examples.any_port).2.1 rfl,
    (register_succeeds_iff examples.any_port examples.sinks examples.busy (some 1) 3).2.2.1
      (by decide) (by decide)⟩

/-! ## Connecting with `ANY_PORT` -/

theorem node_map_find_first_free_le_length (ANY_PORT : Nat) (nodes : node_map_t) :
    utils.node_map_find_first_free ANY_PORT nodes ANY_PORT ≤ nodes.length := by
  obtain ⟨n, hn, hfree⟩ := node_map_exists_free nodes
  obtain ⟨_, hleast⟩ := node_map_find_first_free_any ANY_PORT nodes
  by_contra hgt
  exact hleast n (by omega) hfree

theorem node_map_find_first_free_eq (ANY_PORT : Nat) (nodes : node_map_t) (k : Nat)
    (hk : ∀ i, nodes.count i ≠ 0 ↔ i < k) :
    utils.node_map_find_first_free ANY_PORT nodes ANY_PORT = k := by
  obtain ⟨hfree, hleast⟩ := node_map_find_first_free_any ANY_PORT nodes
  have h1 : ¬ (utils.node_map_find_first_free ANY_PORT nodes ANY_PORT < k) :=
    fun hlt => (hk _).mpr hlt hfree
  have h2 : ¬ (k < utils.node_map_find_first_free ANY_PORT nodes ANY_PORT) :=
    fun hlt => Nat.lt_irrefl k ((hk k).mp (hleast k hlt))
  omega

theorem connect_downstream_any_port_ok (ANY_PORT : Nat) (is_sink : Nat → Bool)
    (self : node_ctrl_base) (N : sptr) (args : device_addr_t) (r : Nat)
    (hr : utils.node_map_find_first_free ANY_PORT self._downstream_nodes ANY_PORT = r)
    (hN : dynamic_pointer_cast is_sink N ≠ none) (hne : r ≠ ANY_PORT) :
    source_node_ctrl.connect_downstream ANY_PORT is_sink self N ANY_PORT args
      = (.ok r, { self with
          _downstream_nodes := self._downstream_nodes.assign r (wptr_of_sptr N) }) := by
  have hfree : self._downstream_nodes.count r = 0 := by
    rw [← hr]
    exact (node_map_find_first_free_any ANY_PORT self._downstream_nodes).1
  rw [connect_downstream_unfold, hr, register_ok ANY_PORT is_sink self N r hne hfree hN]

theorem connect_results_any_port_from (ANY_PORT : Nat) (is_sink : Nat → Bool) :
    ∀ (calls : List connect_call) (done : List sptr) (self : node_ctrl_base),
      (∀ c ∈ calls, c.port = ANY_PORT) →
      (∀ c ∈ calls, dynamic_pointer_cast is_sink c.downstream_node ≠ none) →
      (∀ i, i < done.length + calls.length → i ≠ ANY_PORT) →
      (∀ i, self._downstream_nodes.find i = (done[i]?).map wptr_of_sptr) →
      self._downstream_nodes.length = done.length →
      (connect_results ANY_PORT is_sink self calls).1
        = (List.range' done.length calls.length).map Except.ok ∧
      (∀ i, (connect_results ANY_PORT is_sink self calls).2._downstream_nodes.find i
        = ((done ++ calls.map (fun c => c.downstream_node))[i]?).map wptr_of_sptr) ∧
      (connect_results ANY_PORT is_sink self calls).2._downstream_nodes.length
        = done.length + calls.length := by
  intro calls
  induction calls with
  | nil =>
    intro done self _ _ _ hfind hlen
    simp only [connect_results, List.length_nil, List.range'_zero, List.map_nil,
      List.append_nil, Nat.add_zero]
    exact ⟨trivial, hfind, hlen⟩
  | cons c rest ih =>
    intro done self hport hsink hsentinel hfind hlen
    have hcount : ∀ i, self._downstream_nodes.count i ≠ 0 ↔ i < done.length := by
      intro i
      rw [Ne, node_map_count_eq_zero_iff, hfind i]
      by_cases hi : i < done.length
      · simp [hi]
      · simp [hi, List.getElem?_eq_none (Nat.le_of_not_lt hi)]
    have hr := node_map_find_first_free_eq ANY_PORT self._downstream_nodes done.length hcount
    have hne : done.length ≠ ANY_PORT :=
      hsentinel done.length (by simp only [List.length_cons]; omega)
    have hfree : self._downstream_nodes.count done.length = 0 := by
      by_contra hc
      exact Nat.lt_irrefl _ ((hcount _).mp hc)
    have hcall : source_node_ctrl.connect_downstream ANY_PORT is_sink self c.downstream_node
        c.port c.args
        = (.ok done.length, { self with _downstream_nodes :=
            self._downstream_nodes.assign done.length (wptr_of_sptr c.downstream_node) }) := by
      rw [hport c (List.mem_cons_self _ _)]
      exact connect_downstream_any_port_ok ANY_PORT is_sink self c.downstream_node c.args
        done.length hr (hsink c (List.mem_cons_self _ _)) hne
    obtain ⟨ih1, ih2, ih3⟩ := ih (done ++ [c.downstream_node])
      { self with _downstream_nodes :=
          self._downstream_nodes.assign done.length (wptr_of_sptr c.downstream_node) }
      (fun c' hc' => hport c' (List.mem_cons_of_mem _ hc'))
      (fun c' hc' => hsink c' (List.mem_cons_of_mem _ hc'))
      (fun i hi => hsentinel i (by
        simp only [List.length_append, List.length_cons, List.length_nil] at hi ⊢
        omega))
      (by
        intro i
        simp only []
        rw [node_map_find_assign]
        by_cases hi : i = done.length
        · subst hi
          simp
        · rw [if_neg hi, hfind i]
          rcases Nat.lt_or_gt_of_ne hi with h1 | h1
          · rw [List.getElem?_append_left h1]
          · have e1 : (done ++ [c.downstream_node])[i]? = none :=
              List.getElem?_eq_none (by simp; omega)
            have e2 : done[i]? = none := List.getElem?_eq_none (by omega)
            rw [e1, e2])
      (by
        simp only [List.length_append, List.length_cons, List.length_nil]
        rw [node_map_length_assign _ _ _ hfree, hlen])
    simp only [connect_results, hcall]
    refine ⟨?_, ?_, ?_⟩
    · rw [ih1]
      simp [List.range'_succ]
    · intro i
      rw [ih2 i]
      simp
    · rw [ih3]
      simp only [List.length_append, List.length_cons, List.length_nil]
      omega

open source_node_ctrl in
/-- C18: from a source with an empty downstream map, the calls of a list, each
with `ANY_PORT` and a target that passes the Sink cast, return 0, 1, ..., n-1 in
this order, and the downstream map afterwards maps every `i` below `n` to the
target of call `i`, has no other key, and has `n` entries. The value of
`ANY_PORT` is a parameter, of which the spec says that it is distinct from all
valid port indices: it is assumed to be none of 0, ..., n-1. -/
theorem connect_any_port_sequence (ANY_PORT : Nat) (is_sink : Nat → Bool)
    (start : node_ctrl_base) (calls : List connect_call)
    (hstart : start._downstream_nodes = [])
    (hport : ∀ c ∈ calls, c.port = ANY_PORT)
    (hsink : ∀ c ∈ calls, dynamic_pointer_cast is_sink c.downstream_node ≠ none)
    (hsentinel : ∀ i, i < calls.length → i ≠ ANY_PORT) :
    (connect_results ANY_PORT is_sink start calls).1
      = (List.range calls.length).map Except.ok ∧
    (∀ i, (connect_results ANY_PORT is_sink start calls).2._downstream_nodes.find i
      = (calls[i]?).map (fun c => wptr_of_sptr c.downstream_node)) ∧
    (connect_results ANY_PORT is_sink start calls).2._downstream_nodes.length
      = calls.length := by
  obtain ⟨h1, h2, h3⟩ := connect_results_any_port_from ANY_PORT is_sink calls [] start hport
    hsink (by simpa using hsentinel) (by intro i; rw [hstart]; simp [node_map_t.find])
    (by rw [hstart]; rfl)
  refine ⟨?_, ?_, ?_⟩
  · rw [h1, List.range_eq_range']
    rfl
  · intro i
    rw [h2 i]
    simp only [List.nil_append, List.getElem?_map, Option.map_map]
    rfl
  · rw [h3]
    simp

open source_node_ctrl in
/-- Witness of C18: three calls with `ANY_PORT` on a fresh node, with the sinks at
addresses 2, 4 and 6 as targets. -/
theorem connect_any_port_sequence_witness :
    (connect_results examples.any_port examples.sinks examples.fresh
      [⟨some 2, examples.any_port, []⟩, ⟨some 4, examples.any_port, []⟩,
        ⟨some 6, examples.any_port, [("gain", "3")]⟩]).1
      = (List.range 3).map Except.ok ∧
    (∀ i, (connect_results examples.any_port examples.sinks examples.fresh
      [⟨some 2, examples.any_port, []⟩, ⟨some 4, examples.any_port, []⟩,
        ⟨some 6, examples.any_port, [("gain", "3")]⟩]).2._downstream_nodes.find i
      = (([⟨some 2, examples.any_port, []⟩, ⟨some 4, examples.any_port, []⟩,
        ⟨some 6, examples.any_port, [("gain", "3")]⟩] : List connect_call)[i]?).map
          (fun c => wptr_of_sptr c.downstream_node)) ∧
    (connect_results examples.any_port examples.sinks examples.fresh
      [⟨some 2, examples.any_port, []⟩, ⟨some 4, examples.any_port, []⟩,
        ⟨some 6, examples.any_port, [("gain", "3")]⟩]).2._downstream_nodes.length = 3 :=
  connect_any_port_sequence examples.any_port examples.sinks examples.fresh
    [⟨some 2, examples.any_port, []⟩, ⟨some 4, examples.any_port, []⟩,
      ⟨some 6, examples.any_port, [("gain", "3")]⟩]
    rfl
    (by intro c hc; simp at hc; rcases hc with rfl | rfl | rfl <;> rfl)
    (by intro c hc; simp at hc; rcases hc with rfl | rfl | rfl <;> decide)
    (by
      intro i hi
      simp only [List.length_cons, List.length_nil] at hi
      simp only [examples.any_port]
      omega)

open source_node_ctrl in
/-- C19: for a target that passes the Sink cast, `connect_downstream` with
`ANY_PORT` returns normally: the port it returns is the one `_request_output_port`
resolves, it is not `ANY_PORT` and was not a key, and the downstream map
afterwards maps it to the target, maps every other port as before, and has one
entry more. The value of `ANY_PORT` is a parameter, of which the spec says that
it is distinct from all valid port indices: it is assumed to be none of the
indices up to the number of entries of the map, which are those the scan can
reach. -/
theorem connect_any_port_never_fails (ANY_PORT : Nat) (is_sink : Nat → Bool)
    (self : node_ctrl_base) (N : sptr) (args : device_addr_t)
    (hN : dynamic_pointer_cast is_sink N ≠ none)
    (hsentinel : ∀ i, i ≤ self._downstream_nodes.length → i ≠ ANY_PORT) :
    (connect_downstream ANY_PORT is_sink self N ANY_PORT args).1
      = .ok (_request_output_port ANY_PORT self ANY_PORT args).1 ∧
    (_request_output_port ANY_PORT self ANY_PORT args).1 ≠ ANY_PORT ∧
    self._downstream_nodes.count (_request_output_port ANY_PORT self ANY_PORT args).1 = 0 ∧
    (connect_downstream ANY_PORT is_sink self N ANY_PORT args).2._downstream_nodes.find
        (_request_output_port ANY_PORT self ANY_PORT args).1 = some (wptr_of_sptr N) ∧
    (∀ q, q ≠ (_request_output_port ANY_PORT self ANY_PORT args).1 →
      (connect_downstream ANY_PORT is_sink self N ANY_PORT args).2._downstream_nodes.find q
        = self._downstream_nodes.find q) ∧
    (connect_downstream ANY_PORT is_sink self N ANY_PORT args).2._downstream_nodes.length
      = self._downstream_nodes.length + 1 := by
  have hreq : (_request_output_port ANY_PORT self ANY_PORT args).1 =
      utils.node_map_find_first_free ANY_PORT self._downstream_nodes ANY_PORT := rfl
  have hne : utils.node_map_find_first_free ANY_PORT self._downstream_nodes ANY_PORT
      ≠ ANY_PORT :=
    hsentinel _ (node_map_find_first_free_le_length ANY_PORT self._downstream_nodes)
  have hfree := (node_map_find_first_free_any ANY_PORT self._downstream_nodes).1
  rw [hreq, connect_downstream_any_port_ok ANY_PORT is_sink self N args _ rfl hN hne]
  refine ⟨rfl, hne, hfree, ?_, ?_, ?_⟩
  · simp [node_map_find_assign]
  · intro q hq
    simp [node_map_find_assign, hq]
  · exact node_map_length_assign _ _ _ hfree

open source_node_ctrl in
/-- Witness of C19: the sink at address 2 is connected with `ANY_PORT` to the
node with ports 0, 1 and 3 in use. -/
theorem connect_any_port_never_fails_witness :
    (connect_downstream examples.any_port examples.sinks examples.busy (some 2)
        examples.any_port []).1
      = .ok (_request_output_port examples.any_port examples.busy examples.any_port []).1 ∧
    (connect_downstream examples.any_port examples.sinks examples.busy (some 2)
        examples.any_port []).2._downstream_nodes.length
      = examples.busy._downstream_nodes.length + 1 :=
  ⟨(connect_any_port_never_fails examples.any_port examples.sinks examples.busy (some 2) []
      (by decide) (by
        intro i hi
        simp only [examples.busy, List.length_cons, List.length_nil] at hi
        simp only [examples.any_port]
        omega)).1,
    (connect_any_port_never_fails examples.any_port examples.sinks examples.busy (some 2) []
      (by decide) (by
        intro i hi
        simp only [examples.busy, List.length_cons, List.length_nil] at hi
        simp only [examples.any_port]
        omega)).2.2.2.2.2⟩

/-! ## Termination of the typed search -/

theorem node_heap_object_mem_addresses (h : node_heap) (c : Nat)
    (hc : (h.object c).isSome) : c ∈ h.addresses := by
  induction h with
  | nil => simp [node_heap.object] at hc
  | cons e rest ih =>
    obtain ⟨a', o'⟩ := e
    simp only [node_heap.addresses, List.map_cons, List.mem_cons]
    by_cases h1 : a' = c
    · exact Or.inl h1.symm
    · simp only [node_heap.object, if_neg h1] at hc
      exact Or.inr (ih hc)

theorem node_heap_lock_live (h : node_heap) (w : wptr) (c : Nat)
    (hw : h.lock w = some c) : c ∈ h.addresses := by
  cases w with
  | none => simp [node_heap.lock] at hw
  | some c' =>
    simp only [node_heap.lock] at hw
    by_cases hl : (h.object c').isSome
    · rw [if_pos hl] at hw
      have hcc : c' = c := Option.some.inj hw
      rw [← hcc]
      exact node_heap_object_mem_addresses h c' hl
    · rw [if_neg hl] at hw
      simp at hw

theorem child_nodes_live (h : node_heap) (downstream : Bool) (n c : Nat)
    (hc : c ∈ child_nodes h downstream n) : c ∈ h.addresses := by
  cases hobj : h.object n with
  | none => simp [child_nodes, hobj] at hc
  | some obj =>
    simp only [child_nodes, hobj, List.mem_filterMap] at hc
    obtain ⟨e, _, he⟩ := hc
    exact node_heap_lock_live h e.2 c he

theorem unexplored_le_length (l ex : List Nat) : unexplored l ex ≤ l.length := by
  induction l with
  | nil => simp [unexplored]
  | cons a rest ih =>
    simp only [unexplored, List.length_cons]
    by_cases h1 : a ∈ ex
    · rw [if_pos h1]; omega
    · rw [if_neg h1]; omega

theorem unexplored_cons_le (l ex : List Nat) (c : Nat) :
    unexplored l (c :: ex) ≤ unexplored l ex := by
  induction l with
  | nil => simp [unexplored]
  | cons a rest ih =>
    simp only [unexplored]
    by_cases h1 : a ∈ ex
    · rw [if_pos h1, if_pos (List.mem_cons_of_mem _ h1)]; omega
    · by_cases h2 : a ∈ c :: ex
      · rw [if_pos h2, if_neg h1]; omega
      · rw [if_neg h2, if_neg h1]; omega

theorem unexplored_cons_lt (l ex : List Nat) (c : Nat) (hc : c ∈ l) (hne : c ∉ ex) :
    unexplored l (c :: ex) + 1 ≤ unexplored l ex := by
  induction l with
  | nil => simp at hc
  | cons a rest ih =>
    simp only [unexplored]
    by_cases h0 : c = a
    · have hle := unexplored_cons_le rest ex c
      rw [← h0, if_pos (List.mem_cons_self _ _), if_neg hne]
      omega
    · have hrest : c ∈ rest := by
        rcases List.mem_cons.mp hc with h1 | h1
        · exact absurd h1 h0
        · exact h1
      have hlt := ih hrest
      by_cases h2 : a ∈ ex
      · rw [if_pos h2, if_pos (List.mem_cons_of_mem _ h2)]; omega
      · by_cases h3 : a ∈ c :: ex
        · rw [if_pos h3, if_neg h2]; omega
        · rw [if_neg h3, if_neg h2]; omega

theorem visit_measure (h : node_heap) (is_T : Nat → Bool) (st : search_state) (c : Nat)
    (hc : c ∈ h.addresses) :
    search_measure h (visit is_T st c) ≤ search_measure h st := by
  unfold visit
  by_cases h1 : c ∈ st.explored
  · rw [if_pos h1]
  · rw [if_neg h1]
    have hlt := unexplored_cons_lt h.addresses st.explored c hc h1
    by_cases h2 : is_T c = true
    · rw [if_pos h2]
      simp only [search_measure]
      omega
    · rw [if_neg h2]
      simp only [search_measure, List.length_append, List.length_singleton]
      omega

theorem foldl_visit_measure (h : node_heap) (is_T : Nat → Bool) :
    ∀ (cs : List Nat) (st : search_state), (∀ c ∈ cs, c ∈ h.addresses) →
      search_measure h (cs.foldl (visit is_T) st) ≤ search_measure h st := by
  intro cs
  induction cs with
  | nil => intro st _; exact Nat.le_refl _
  | cons c rest ih =>
    intro st hcs
    simp only [List.foldl_cons]
    exact Nat.le_trans (ih _ (fun x hx => hcs x (List.mem_cons_of_mem _ hx)))
      (visit_measure h is_T st c (hcs c (List.mem_cons_self _ _)))

theorem search_loop_nil (h : node_heap) (downstream : Bool) (is_T : Nat → Bool)
    (fuel : Nat) (st : search_state) (hq : st.queue = []) :
    search_loop h downstream is_T fuel st = some st := by
  cases fuel with
  | zero => simp [search_loop, hq]
  | succ fuel => simp [search_loop, hq]

theorem search_loop_cons (h : node_heap) (downstream : Bool) (is_T : Nat → Bool)
    (fuel : Nat) (st : search_state) (n : Nat) (rest : List Nat)
    (hq : st.queue = n :: rest) :
    search_loop h downstream is_T (fuel + 1) st
      = search_loop h downstream is_T fuel
          ((child_nodes h downstream n).foldl (visit is_T)
            { st with queue := rest, expanded := st.expanded ++ [n] }) := by
  simp [search_loop, hq]

theorem search_loop_terminates (h : node_heap) (downstream : Bool) (is_T : Nat → Bool) :
    ∀ (fuel : Nat) (st : search_state), search_measure h st ≤ fuel →
      ∃ st', search_loop h downstream is_T fuel st = some st' := by
  intro fuel
  induction fuel with
  | zero =>
    intro st hm
    have hq : st.queue = [] := by
      simp only [search_measure] at hm
      exact List.length_eq_zero.mp (by omega)
    exact ⟨st, search_loop_nil h downstream is_T 0 st hq⟩
  | succ fuel ih =>
    intro st hm
    cases hq : st.queue with
    | nil => exact ⟨st, search_loop_nil h downstream is_T _ st hq⟩
    | cons n rest =>
      rw [search_loop_cons h downstream is_T fuel st n rest hq]
      apply ih
      refine Nat.le_trans (foldl_visit_measure h is_T _ _
        (fun c hc => child_nodes_live h downstream n c hc)) ?_
      simp only [search_measure, hq, List.length_cons] at hm ⊢
      omega

theorem search_loop_one_more (h : node_heap) (downstream : Bool) (is_T : Nat → Bool) :
    ∀ (fuel : Nat) (st st' : search_state),
      search_loop h downstream is_T fuel st = some st' →
      search_loop h downstream is_T (fuel + 1) st = some st' := by
  intro fuel
  induction fuel with
  | zero =>
    intro st st' hs
    by_cases hq : st.queue = []
    · rw [search_loop_nil h downstream is_T 0 st hq] at hs
      rw [search_loop_nil h downstream is_T 1 st hq]
      exact hs
    · simp [search_loop, hq] at hs
  | succ fuel ih =>
    intro st st' hs
    cases hq : st.queue with
    | nil =>
      rw [search_loop_nil h downstream is_T _ st hq] at hs
      rw [search_loop_nil h downstream is_T _ st hq]
      exact hs
    | cons n rest =>
      rw [search_loop_cons h downstream is_T fuel st n rest hq] at hs
      rw [search_loop_cons h downstream is_T (fuel + 1) st n rest hq]
      exact ih _ _ hs

theorem search_loop_more_fuel (h : node_heap) (downstream : Bool) (is_T : Nat → Bool)
    (fuel : Nat) (st st' : search_state)
    (hs : search_loop h downstream is_T fuel st = some st') :
    ∀ fuel', fuel ≤ fuel' → search_loop h downstream is_T fuel' st = some st' := by
  intro fuel' hle
  induction fuel' with
  | zero =>
    have h0 : fuel = 0 := by omega
    rw [← h0]
    exact hs
  | succ k ih =>
    by_cases hk : fuel ≤ k
    · exact search_loop_one_more h downstream is_T k st st' (ih hk)
    · have h0 : fuel = k + 1 := by omega
      rw [← h0]
      exact hs

/-! ## Invariant of the typed search -/

theorem visit_inv (h : node_heap) (downstream : Bool) (is_T : Nat → Bool) (self n : Nat)
    (st : search_state) (c : Nat)
    (hn : open_branch h downstream is_T self n) (hc : c ∈ child_nodes h downstream n)
    (hinv : search_inv h downstream is_T self st) :
    search_inv h downstream is_T self (visit is_T st c) := by
  obtain ⟨i1, i2, i3, i4, i5, i6⟩ := hinv
  unfold visit
  by_cases h1 : c ∈ st.explored
  · rw [if_pos h1]
    exact ⟨i1, i2, i3, i4, i5, i6⟩
  · rw [if_neg h1]
    by_cases h2 : is_T c = true
    · rw [if_pos h2]
      unfold search_inv
      dsimp only
      refine ⟨i1, fun x hx => List.mem_cons_of_mem _ (i2 x hx), ?_, ?_, i5, ?_⟩
      · refine List.nodup_append.mpr ⟨i3, List.nodup_singleton c, ?_⟩
        intro x hx hx'
        rw [List.mem_singleton] at hx'
        rw [hx'] at hx
        exact h1 (i4 c hx)
      · intro x hx
        rcases List.mem_append.mp hx with hx | hx
        · exact List.mem_cons_of_mem _ (i4 x hx)
        · rw [List.mem_singleton] at hx
          rw [hx]
          exact List.mem_cons_self _ _
      · intro r hr
        rcases List.mem_append.mp hr with hr | hr
        · exact i6 r hr
        · rw [List.mem_singleton] at hr
          rw [hr]
          exact ⟨h2, n, hn, hc⟩
    · rw [if_neg h2]
      unfold search_inv
      dsimp only
      refine ⟨?_, ?_, i3, fun x hx => List.mem_cons_of_mem _ (i4 x hx), ?_, i6⟩
      · rw [← List.append_assoc]
        refine List.nodup_append.mpr ⟨i1, List.nodup_singleton c, ?_⟩
        intro x hx hx'
        rw [List.mem_singleton] at hx'
        rw [hx'] at hx
        exact h1 (i2 c hx)
      · intro x hx
        rw [← List.append_assoc] at hx
        rcases List.mem_append.mp hx with hx | hx
        · exact List.mem_cons_of_mem _ (i2 x hx)
        · rw [List.mem_singleton] at hx
          rw [hx]
          exact List.mem_cons_self _ _
      · intro x hx
        rcases List.mem_append.mp hx with hx | hx
        · exact i5 x hx
        · rw [List.mem_singleton] at hx
          rw [hx]
          exact open_branch.next n c hn hc (by simpa using h2)

theorem foldl_visit_inv (h : node_heap) (downstream : Bool) (is_T : Nat → Bool)
    (self n : Nat) (hn : open_branch h downstream is_T self n) :
    ∀ (cs : List Nat) (st : search_state), (∀ c ∈ cs, c ∈ child_nodes h downstream n) →
      search_inv h downstream is_T self st →
      search_inv h downstream is_T self (cs.foldl (visit is_T) st) := by
  intro cs
  induction cs with
  | nil => intro st _ hinv; exact hinv
  | cons c rest ih =>
    intro st hcs hinv
    simp only [List.foldl_cons]
    exact ih _ (fun x hx => hcs x (List.mem_cons_of_mem _ hx))
      (visit_inv h downstream is_T self n st c hn (hcs c (List.mem_cons_self _ _)) hinv)

theorem pop_inv (h : node_heap) (downstream : Bool) (is_T : Nat → Bool) (self : Nat)
    (st : search_state) (n : Nat) (rest : List Nat) (hq : st.queue = n :: rest)
    (hinv : search_inv h downstream is_T self st) :
    search_inv h downstream is_T self
      { st with queue := rest, expanded := st.expanded ++ [n] } ∧
    open_branch h downstream is_T self n := by
  obtain ⟨i1, i2, i3, i4, i5, i6⟩ := hinv
  rw [hq] at i1 i2 i5
  refine ⟨?_, i5 n (List.mem_cons_self _ _)⟩
  unfold search_inv
  dsimp only
  refine ⟨?_, ?_, i3, i4, fun x hx => i5 x (List.mem_cons_of_mem _ hx), i6⟩
  · rw [List.append_assoc, List.singleton_append]
    exact i1
  · intro x hx
    rw [List.append_assoc, List.singleton_append] at hx
    exact i2 x hx

theorem search_loop_inv (h : node_heap) (downstream : Bool) (is_T : Nat → Bool)
    (self : Nat) :
    ∀ (fuel : Nat) (st st' : search_state), search_inv h downstream is_T self st →
      search_loop h downstream is_T fuel st = some st' →
      search_inv h downstream is_T self st' ∧ st'.queue = [] := by
  intro fuel
  induction fuel with
  | zero =>
    intro st st' hinv hs
    by_cases hq : st.queue = []
    · rw [search_loop_nil h downstream is_T 0 st hq] at hs
      rw [← Option.some.inj hs]
      exact ⟨hinv, hq⟩
    · simp [search_loop, hq] at hs
  | succ fuel ih =>
    intro st st' hinv hs
    cases hq : st.queue with
    | nil =>
      rw [search_loop_nil h downstream is_T _ st hq] at hs
      rw [← Option.some.inj hs]
      exact ⟨hinv, hq⟩
    | cons n rest =>
      rw [search_loop_cons h downstream is_T fuel st n rest hq] at hs
      obtain ⟨hpop, hn⟩ := pop_inv h downstream is_T self st n rest hq hinv
      exact ih _ _
        (foldl_visit_inv h downstream is_T self n hn _ _ (fun c hc => hc) hpop) hs

theorem search_inv_start (h : node_heap) (downstream : Bool) (is_T : Nat → Bool)
    (self : Nat) :
    search_inv h downstream is_T self
      { queue := [self], explored := [self], expanded := [], results := [] } := by
  unfold search_inv
  dsimp only
  refine ⟨by simp, by simp, List.nodup_nil, by simp, ?_, by simp⟩
  intro x hx
  rw [List.mem_singleton] at hx
  rw [hx]
  exact open_branch.start

theorem search_measure_start (h : node_heap) (self : Nat) :
    search_measure h { queue := [self], explored := [self], expanded := [], results := [] }
      ≤ h.length + 1 := by
  have hle := unexplored_le_length h.addresses [self]
  simp only [node_heap.addresses, List.length_map] at hle
  simp only [search_measure, node_heap.addresses, List.length_singleton]
  omega

theorem find_child_node_sound (h : node_heap) (self : Nat) (is_T : Nat → Bool)
    (downstream : Bool) (res : List Nat)
    (hres : _find_child_node h self is_T downstream = some res) :
    res.Nodup ∧
    ∀ r ∈ res, is_T r = true ∧
      ∃ n, open_branch h downstream is_T self n ∧ r ∈ child_nodes h downstream n := by
  unfold _find_child_node at hres
  cases hs : search_loop h downstream is_T (h.length + 1)
      { queue := [self], explored := [self], expanded := [], results := [] } with
  | none => rw [hs] at hres; simp at hres
  | some st =>
    rw [hs] at hres
    simp only [Option.map_some', Option.some.injEq] at hres
    obtain ⟨⟨_, _, i3, _, _, i6⟩, _⟩ := search_loop_inv h downstream is_T self _ _ _
      (search_inv_start h downstream is_T self) hs
    rw [← hres]
    exact ⟨i3, i6⟩

/-! ## Completeness of the typed search -/

theorem visit_explored_mono (is_T : Nat → Bool) (st : search_state) (c x : Nat)
    (hx : x ∈ st.explored) : x ∈ (visit is_T st c).explored := by
  unfold visit
  by_cases h1 : c ∈ st.explored
  · rw [if_pos h1]; exact hx
  · rw [if_neg h1]
    by_cases h2 : is_T c = true
    · rw [if_pos h2]; exact List.mem_cons_of_mem _ hx
    · rw [if_neg h2]; exact List.mem_cons_of_mem _ hx

theorem visit_explored_self (is_T : Nat → Bool) (st : search_state) (c : Nat) :
    c ∈ (visit is_T st c).explored := by
  unfold visit
  by_cases h1 : c ∈ st.explored
  · rw [if_pos h1]; exact h1
  · rw [if_neg h1]
    by_cases h2 : is_T c = true
    · rw [if_pos h2]; exact List.mem_cons_self _ _
    · rw [if_neg h2]; exact List.mem_cons_self _ _

theorem visit_expanded (is_T : Nat → Bool) (st : search_state) (c : Nat) :
    (visit is_T st c).expanded = st.expanded := by
  unfold visit
  by_cases h1 : c ∈ st.explored
  · rw [if_pos h1]
  · rw [if_neg h1]
    by_cases h2 : is_T c = true
    · rw [if_pos h2]
    · rw [if_neg h2]

theorem foldl_visit_explored_mono (is_T : Nat → Bool) (x : Nat) :
    ∀ (cs : List Nat) (st : search_state), x ∈ st.explored →
      x ∈ (cs.foldl (visit is_T) st).explored := by
  intro cs
  induction cs with
  | nil => intro st hx; exact hx
  | cons c rest ih =>
    intro st hx
    simp only [List.foldl_cons]
    exact ih _ (visit_explored_mono is_T st c x hx)

theorem foldl_visit_explored_mem (is_T : Nat → Bool) :
    ∀ (cs : List Nat) (st : search_state), ∀ c ∈ cs,
      c ∈ (cs.foldl (visit is_T) st).explored := by
  intro cs
  induction cs with
  | nil => intro st c hc; simp at hc
  | cons c' rest ih =>
    intro st c hc
    simp only [List.foldl_cons]
    rcases List.mem_cons.mp hc with h1 | h1
    · rw [h1]
      exact foldl_visit_explored_mono is_T c' rest _ (visit_explored_self is_T st c')
    · exact ih _ c h1

theorem foldl_visit_expanded (is_T : Nat → Bool) :
    ∀ (cs : List Nat) (st : search_state),
      (cs.foldl (visit is_T) st).expanded = st.expanded := by
  intro cs
  induction cs with
  | nil => intro st; rfl
  | cons c rest ih =>
    intro st
    simp only [List.foldl_cons]
    rw [ih, visit_expanded]

theorem visit_marks (is_T : Nat → Bool) (self : Nat) (st : search_state) (c : Nat)
    (hm : search_marks is_T self st) : search_marks is_T self (visit is_T st c) := by
  obtain ⟨m1, m2, m3, m4, m5⟩ := hm
  unfold visit
  by_cases h1 : c ∈ st.explored
  · rw [if_pos h1]
    exact ⟨m1, m2, m3, m4, m5⟩
  · have hcs : c ≠ self := fun e => h1 (e ▸ m1)
    rw [if_neg h1]
    by_cases h2 : is_T c = true
    · rw [if_pos h2]
      unfold search_marks
      dsimp only
      refine ⟨List.mem_cons_of_mem _ m1, m2, ?_, ?_, ?_⟩
      · intro r hr
        rcases List.mem_append.mp hr with hr | hr
        · exact m3 r hr
        · rw [List.mem_singleton] at hr
          rw [hr]
          exact hcs
      · intro x hx hT hxs
        rcases List.mem_cons.mp hx with hx | hx
        · rw [hx]
          exact List.mem_append.mpr (Or.inr (List.mem_singleton.mpr rfl))
        · exact List.mem_append.mpr (Or.inl (m4 x hx hT hxs))
      · intro x hx hT
        rcases List.mem_cons.mp hx with hx | hx
        · rw [hx, h2] at hT
          exact absurd hT (by decide)
        · exact m5 x hx hT
    · rw [if_neg h2]
      unfold search_marks
      dsimp only
      refine ⟨List.mem_cons_of_mem _ m1, ?_, m3, ?_, ?_⟩
      · rw [← List.append_assoc]
        exact List.mem_append.mpr (Or.inl m2)
      · intro x hx hT hxs
        rcases List.mem_cons.mp hx with hx | hx
        · rw [hx] at hT
          exact absurd hT h2
        · exact m4 x hx hT hxs
      · intro x hx hT
        rw [← List.append_assoc]
        rcases List.mem_cons.mp hx with hx | hx
        · rw [hx]
          exact List.mem_append.mpr (Or.inr (List.mem_singleton.mpr rfl))
        · exact List.mem_append.mpr (Or.inl (m5 x hx hT))

theorem foldl_visit_marks (is_T : Nat → Bool) (self : Nat) :
    ∀ (cs : List Nat) (st : search_state), search_marks is_T self st →
      search_marks is_T self (cs.foldl (visit is_T) st) := by
  intro cs
  induction cs with
  | nil => intro st hm; exact hm
  | cons c rest ih =>
    intro st hm
    simp only [List.foldl_cons]
    exact ih _ (visit_marks is_T self st c hm)

theorem pop_marks (is_T : Nat → Bool) (self : Nat) (st : search_state) (n : Nat)
    (rest : List Nat) (hq : st.queue = n :: rest) (hm : search_marks is_T self st) :
    search_marks is_T self { st with queue := rest, expanded := st.expanded ++ [n] } := by
  obtain ⟨m1, m2, m3, m4, m5⟩ := hm
  rw [hq] at m2 m5
  unfold search_marks
  dsimp only
  refine ⟨m1, ?_, m3, m4, ?_⟩
  · rw [List.append_assoc, List.singleton_append]
    exact m2
  · intro x hx hT
    rw [List.append_assoc, List.singleton_append]
    exact m5 x hx hT

theorem search_loop_marks (h : node_heap) (downstream : Bool) (is_T : Nat → Bool)
    (self : Nat) :
    ∀ (fuel : Nat) (st st' : search_state), search_marks is_T self st →
      search_closed h downstream st →
      search_loop h downstream is_T fuel st = some st' →
      search_marks is_T self st' ∧ search_closed h downstream st' := by
  intro fuel
  induction fuel with
  | zero =>
    intro st st' hm hc hs
    by_cases hq : st.queue = []
    · rw [search_loop_nil h downstream is_T 0 st hq] at hs
      rw [← Option.some.inj hs]
      exact ⟨hm, hc⟩
    · simp [search_loop, hq] at hs
  | succ fuel ih =>
    intro st st' hm hc hs
    cases hq : st.queue with
    | nil =>
      rw [search_loop_nil h downstream is_T _ st hq] at hs
      rw [← Option.some.inj hs]
      exact ⟨hm, hc⟩
    | cons n rest =>
      rw [search_loop_cons h downstream is_T fuel st n rest hq] at hs
      refine ih _ _
        (foldl_visit_marks is_T self _ _ (pop_marks is_T self st n rest hq hm)) ?_ hs
      intro m hmem c hcm
      rw [foldl_visit_expanded] at hmem
      rcases List.mem_append.mp hmem with hmem | hmem
      · exact foldl_visit_explored_mono is_T c _ _ (hc m hmem c hcm)
      · rw [List.mem_singleton] at hmem
        rw [hmem] at hcm
        exact foldl_visit_explored_mem is_T _ _ c hcm

theorem search_marks_start (is_T : Nat → Bool) (self : Nat) :
    search_marks is_T self
      { queue := [self], explored := [self], expanded := [], results := [] } := by
  unfold search_marks
  dsimp only
  refine ⟨by simp, by simp, by simp, ?_, ?_⟩
  · intro x hx _ hxs
    rw [List.mem_singleton] at hx
    exact absurd hx hxs
  · intro x hx _
    simpa using hx

theorem open_branch_expanded (h : node_heap) (downstream : Bool) (is_T : Nat → Bool)
    (self : Nat) (st : search_state) (hm : search_marks is_T self st)
    (hc : search_closed h downstream st) (hq : st.queue = []) (n : Nat)
    (hn : open_branch h downstream is_T self n) : n ∈ st.expanded := by
  obtain ⟨_, m2, _, _, m5⟩ := hm
  rw [hq, List.append_nil] at m2
  induction hn with
  | start => exact m2
  | next n c _ hcn hT ih =>
    have hx := m5 c (hc n ih c hcn) hT
    rw [hq, List.append_nil] at hx
    exact hx

theorem find_child_node_complete (h : node_heap) (self : Nat) (is_T : Nat → Bool)
    (downstream : Bool) (res : List Nat)
    (hres : _find_child_node h self is_T downstream = some res) :
    (∀ r ∈ res, r ≠ self) ∧
    ∀ r n, is_T r = true → r ≠ self → open_branch h downstream is_T self n →
      r ∈ child_nodes h downstream n → r ∈ res := by
  unfold _find_child_node at hres
  cases hs : search_loop h downstream is_T (h.length + 1)
      { queue := [self], explored := [self], expanded := [], results := [] } with
  | none => rw [hs] at hres; simp at hres
  | some st =>
    rw [hs] at hres
    simp only [Option.map_some', Option.some.injEq] at hres
    obtain ⟨_, hq⟩ := search_loop_inv h downstream is_T self _ _ _
      (search_inv_start h downstream is_T self) hs
    obtain ⟨hm, hc⟩ := search_loop_marks h downstream is_T self _ _ _
      (search_marks_start is_T self) (by intro m hmem; simp at hmem) hs
    rw [← hres]
    refine ⟨hm.2.2.1, ?_⟩
    intro r n hT hrs hn hrn
    have hexp := open_branch_expanded h downstream is_T self st hm hc hq n hn
    exact hm.2.2.2.1 r (hc n hexp r hrn) hT hrs

/-! ## The search on a chain -/

theorem child_nodes_single (h : node_heap) (n c port : Nat)
    (obj cobj : node_ctrl_base) (hobj : h.object n = some obj)
    (hmap : obj._downstream_nodes = [(port, some c)]) (hc : h.object c = some cobj) :
    child_nodes h true n = [c] := by
  simp [child_nodes, hobj, list_downstream_nodes, hmap, node_heap.lock, hc]

theorem find_child_node_chain (h : node_heap) (is_T : Nat → Bool) (a b c1 : Nat)
    (A B C1 : node_ctrl_base) (pa pb : Nat)
    (hA : h.object a = some A) (hAmap : A._downstream_nodes = [(pa, some b)])
    (hB : h.object b = some B) (hBmap : B._downstream_nodes = [(pb, some c1)])
    (hC1 : h.object c1 = some C1)
    (hTa : is_T a = false) (hTb : is_T b = false) (hTc1 : is_T c1 = true) :
    _find_child_node h a is_T true = some [c1] := by
  have hab : b ≠ a := by
    intro e
    rw [e, hA] at hB
    have hAB : A = B := Option.some.inj hB
    rw [← hAB, hAmap] at hBmap
    simp only [List.cons.injEq, Prod.mk.injEq, Option.some.injEq, and_true] at hBmap
    rw [hBmap.2, hTc1] at hTb
    exact absurd hTb (by decide)
  have hc1a : c1 ≠ a := by
    intro e
    rw [e, hTa] at hTc1
    exact absurd hTc1 (by decide)
  have hc1b : c1 ≠ b := by
    intro e
    rw [e, hTb] at hTc1
    exact absurd hTc1 (by decide)
  have h1 : (child_nodes h true a).foldl (visit is_T)
      { queue := [], explored := [a], expanded := [a], results := [] }
      = { queue := [b], explored := [b, a], expanded := [a], results := [] } := by
    rw [child_nodes_single h a b pa A B hA hAmap hB]
    simp [visit, hab, hTb]
  have h2 : (child_nodes h true b).foldl (visit is_T)
      { queue := [], explored := [b, a], expanded := [a, b], results := [] }
      = { queue := [], explored := [c1, b, a], expanded := [a, b], results := [c1] } := by
    rw [child_nodes_single h b c1 pb B C1 hB hBmap hC1]
    simp [visit, hc1a, hc1b, hTc1]
  have hrun : search_loop h true is_T (h.length + 1 + 1 + 1)
      { queue := [a], explored := [a], expanded := [], results := [] }
      = some { queue := [], explored := [c1, b, a], expanded := [a, b], results := [c1] } := by
    rw [search_loop_cons h true is_T (h.length + 1 + 1) _ a [] rfl]
    show search_loop h true is_T (h.length + 1 + 1)
      ((child_nodes h true a).foldl (visit is_T)
        { queue := [], explored := [a], expanded := [a], results := [] }) = _
    rw [h1, search_loop_cons h true is_T (h.length + 1) _ b [] rfl]
    show search_loop h true is_T (h.length + 1)
      ((child_nodes h true b).foldl (visit is_T)
        { queue := [], explored := [b, a], expanded := [a, b], results := [] }) = _
    rw [h2, search_loop_nil h true is_T _ _ rfl]
  obtain ⟨st, hs⟩ := search_loop_terminates h true is_T (h.length + 1) _
    (search_measure_start h a)
  have hmore := search_loop_more_fuel h true is_T _ _ _ hs (h.length + 1 + 1 + 1) (by omega)
  rw [hrun] at hmore
  simp only [_find_child_node, hs, Option.map_some']
  rw [← Option.some.inj hmore]

/-! ## The typed search stops at the first match -/

/-- C12: in every heap in which the searching node `self` (A) has the one
downstream connection to B, B the one to C1 and C1 the one to C2, on any ports
and at any addresses, with C1 and C2 of type `T` and A and B not,
`find_downstream_node` called on A returns exactly the one node C1. And in
every heap the nodes `find_downstream_node` returns are exactly the nodes of
type `T`, other than `self`, that are downstream neighbours of a node on an
open branch, one that starts at `self` and has no node of type `T` after it:
each first match of a branch is returned, and no node is returned that is
reached only through other nodes of type `T`. -/
theorem find_downstream_node_stops_at_first_match (h : node_heap) (self : Nat)
    (is_T : Nat → Bool) :
    (∀ (b c1 c2 pa pb pc : Nat) (A B C1 C2 : node_ctrl_base),
      h.object self = some A → A._downstream_nodes = [(pa, some b)] →
      h.object b = some B → B._downstream_nodes = [(pb, some c1)] →
      h.object c1 = some C1 → C1._downstream_nodes = [(pc, some c2)] →
      h.object c2 = some C2 →
      is_T self = false → is_T b = false → is_T c1 = true → is_T c2 = true →
      find_downstream_node h self is_T = some [c1]) ∧
    (∀ res, find_downstream_node h self is_T = some res →
      ∀ r, r ∈ res ↔
        (is_T r = true ∧ r ≠ self ∧
          ∃ n, open_branch h true is_T self n ∧ r ∈ child_nodes h true n)) := by
  refine ⟨?_, ?_⟩
  · intro b c1 c2 pa pb pc A B C1 C2 hA hAmap hB hBmap hC1 _ _ hTa hTb hTc1 _
    exact find_child_node_chain h is_T self b c1 A B C1 pa pb hA hAmap hB hBmap hC1 hTa hTb
      hTc1
  · intro res hres r
    obtain ⟨_, hsound⟩ := find_child_node_sound h self is_T true res hres
    obtain ⟨hne, hcomplete⟩ := find_child_node_complete h self is_T true res hres
    constructor
    · intro hr
      exact ⟨(hsound r hr).1, hne r hr, (hsound r hr).2⟩
    · rintro ⟨hT, hrs, n, hn, hrn⟩
      exact hcomplete r n hT hrs hn hrn

/-- Witness of C12: the chain 10 -> 20 -> 30 -> 40 wired on the ports 7, 2 and 5,
in a heap that lists the objects in another order and holds one more object;
the search from the node at address 10 returns the node at address 30. -/
theorem find_downstream_node_stops_at_first_match_witness :
    find_downstream_node examples.wired 10 examples.type_D = some [30] ∧
    (∀ r, r ∈ [30] ↔
      (examples.type_D r = true ∧ r ≠ 10 ∧
        ∃ n, open_branch examples.wired true examples.type_D 10 n ∧
          r ∈ child_nodes examples.wired true n)) :=
  ⟨(find_downstream_node_stops_at_first_match examples.wired 10 examples.type_D).1
      20 30 40 7 2 5 _ _ _ _ rfl rfl rfl rfl rfl rfl rfl rfl rfl rfl rfl,
    (find_downstream_node_stops_at_first_match examples.wired 10 examples.type_D).2
      [30] (by rfl)⟩

/-! ## The typed search terminates -/

/-- C13: on every heap, in both directions and for every type, the search
returns: with one expansion more than the heap has objects allowed, and with
any larger number, the loop ends in the same state, in which no node waits,
no node was expanded twice, and no node is twice among the matches;
`_find_child_node` returns these matches. -/
theorem find_child_node_terminates (h : node_heap) (self : Nat) (is_T : Nat → Bool)
    (downstream : Bool) :
    ∃ st : search_state,
      (∀ fuel, h.length + 1 ≤ fuel →
        search_loop h downstream is_T fuel
          { queue := [self], explored := [self], expanded := [], results := [] } = some st) ∧
      st.queue = [] ∧
      st.expanded.Nodup ∧
      st.results.Nodup ∧
      _find_child_node h self is_T downstream = some st.results := by
  obtain ⟨st, hs⟩ := search_loop_terminates h downstream is_T (h.length + 1) _
    (search_measure_start h self)
  obtain ⟨⟨i1, _, i3, _, _, _⟩, hq⟩ := search_loop_inv h downstream is_T self _ _ _
    (search_inv_start h downstream is_T self) hs
  refine ⟨st, search_loop_more_fuel h downstream is_T _ _ _ hs, hq, ?_, i3, ?_⟩
  · rw [hq, List.append_nil] at i1
    exact i1
  · simp [_find_child_node, hs]

/-- Witness of C13: the search in the cycle 1 -> 2 -> 3 -> 1, for a type no node
has, expands each of the three nodes once and returns no match; the search
for type `C` returns the node at address 3 once, though two connections lead
to it. -/
theorem find_child_node_terminates_witness :
    search_loop examples.cycle true (fun _ => false) (examples.cycle.length + 1)
        { queue := [1], explored := [1], expanded := [], results := [] }
      = some { queue := [], explored := [3, 2, 1], expanded := [1, 2, 3], results := [] } ∧
    find_downstream_node examples.cycle 1 examples.type_C = some [3] ∧
    (∃ st : search_state,
      (∀ fuel, examples.cycle.length + 1 ≤ fuel →
        search_loop examples.cycle true examples.type_C fuel
          { queue := [1], explored := [1], expanded := [], results := [] } = some st) ∧
      st.queue = [] ∧
      st.expanded.Nodup ∧
      st.results.Nodup ∧
      _find_child_node examples.cycle 1 examples.type_C true = some st.results) :=
  ⟨by rfl, by rfl, find_child_node_terminates examples.cycle 1 examples.type_C true⟩

end rfnoc
end uhd
